import Mathlib

/-!
# Synthesizer voices of `demos/18_AdvSubSyn.cpp` and `demos/25_GrumpyKP.cpp`

A shallow embedding of the three voice classes (`MiniSubWaves`, `KPSWaves`, `FM`), of
`note_freq`, of the classes `Note` and `Sequence`, and of `MyApp::playNote` and
`MyApp::playSequence`.

Conventions of the embedding:

* C++ `float` values are modelled by exact rationals (`ℚ`); rounding is not modelled,
  except for the value returned by `note_freq`, which is converted to `float` with
  rounding to nearest and overflow to `+inf` (`toFloat`).
* The Gamma unit generators (`gam::ADSR`, `gam::Saw`, ...) are library code that the
  demos only call.  Their state types and operations are the fields of the structure
  `Gamma`; every voice definition is parametric in it.
* `getInternalParameterValue` is the lookup `get : String → ℚ` handed to each method.
* One audio block is the list of its stereo frames `(io.out(0), io.out(1))`;
  `while (io())` visits the frames in order.
-/

namespace Synth

/-! ## Library interface -/

/-- The Gamma unit generators used by the voices: one state type per generator class and
one function per member function that the demos call.  Setters take the argument first
and the generator state last; generators that produce a sample return the sample together
with the advanced state. -/
structure Gamma where
  /-- State of a `gam::ADSR<>`. -/
  ADSR : Type
  /-- State of a `gam::EnvFollow<>`. -/
  EnvFollow : Type
  /-- State of a `gam::Saw<>`. -/
  Saw : Type
  /-- State of a `gam::DWO<>`. -/
  DWO : Type
  /-- State of a `gam::NoiseWhite<>`. -/
  NoiseWhite : Type
  /-- State of a `gam::Biquad<>`. -/
  Biquad : Type
  /-- State of a `gam::Comb<>`. -/
  Comb : Type
  /-- State of a `gam::Pan<>`. -/
  Pan : Type
  /-- State of a `gam::Sine<>`. -/
  Sine : Type
  adsrCurve : ℚ → ADSR → ADSR
  adsrLevels : ℚ → ℚ → ℚ → ℚ → ADSR → ADSR
  adsrSustainPoint : ℕ → ADSR → ADSR
  adsrAttack : ℚ → ADSR → ADSR
  adsrDecay : ℚ → ADSR → ADSR
  adsrSustain : ℚ → ADSR → ADSR
  adsrRelease : ℚ → ADSR → ADSR
  /-- The assignment `env.levels()[i] = v`. -/
  adsrSetLevel : ℕ → ℚ → ADSR → ADSR
  /-- The assignment `env.lengths()[i] = v`. -/
  adsrSetLength : ℕ → ℚ → ADSR → ADSR
  /-- The call `env()`: next envelope value and advanced envelope. -/
  adsrTick : ADSR → ℚ × ADSR
  adsrDone : ADSR → Bool
  adsrReset : ADSR → ADSR
  adsrTriggerRelease : ADSR → ADSR
  /-- The call `follow(s)`. -/
  envFollowTick : ℚ → EnvFollow → ℚ × EnvFollow
  envFollowValue : EnvFollow → ℚ
  sawFreq : ℚ → Saw → Saw
  sawTick : Saw → ℚ × Saw
  dwoFreq : ℚ → DWO → DWO
  dwoSqr : DWO → ℚ × DWO
  noiseTick : NoiseWhite → ℚ × NoiseWhite
  biquadFreq : ℚ → Biquad → Biquad
  biquadRes : ℚ → Biquad → Biquad
  biquadTick : ℚ → Biquad → ℚ × Biquad
  combMaxDelay : ℚ → Comb → Comb
  combDelay : ℚ → Comb → Comb
  combFfd : ℚ → Comb → Comb
  combFbk : ℚ → Comb → Comb
  combDecay : ℚ → Comb → Comb
  combTick : ℚ → Comb → ℚ × Comb
  panPos : ℚ → Pan → Pan
  /-- The call `pan(in, out1, out2)`: the pair `(out1, out2)`. -/
  panApply : Pan → ℚ → ℚ × ℚ
  sineFreq : ℚ → Sine → Sine
  sineTick : Sine → ℚ × Sine

/-- One stereo frame of the output buffer: `(io.out(0), io.out(1))`. -/
abbrev Frame := ℚ × ℚ

/-- One audio block: its frames in playing order. -/
abbrev AudioBlock := List Frame

/-- One `createInternalTriggerParameter(name, defaultValue, minValue, maxValue)` call. -/
structure ParamDecl where
  name : String
  defaultValue : ℚ
  minValue : ℚ
  maxValue : ℚ
deriving DecidableEq

/-- What an audio `onProcess` call leaves behind: the voice, the block, and whether
`free()` was called at the end of the block. -/
structure Processed (V : Type) where
  voice : V
  block : AudioBlock
  freed : Bool

/-- The calls made on the `Graphics` object by the graphics `onProcess` methods
(`g.draw(mMesh)` carries no number). -/
inductive GraphicsCall where
  | pushMatrix
  | translate (x y z : ℚ)
  | scale (x y z : ℚ)
  | color (r g b a : ℚ)
  | colorHSV (h s v : ℚ)
  | draw
  | popMatrix
deriving DecidableEq

/-! ## Sample arithmetic shared by `MiniSubWaves` and `KPSWaves` -/

/-- The pre-filter sample `s1` of the subtractive voices (lines 84-86 of
`18_AdvSubSyn.cpp`, 224-226 of `25_GrumpyKP.cpp`). -/
def preFilterSample (osc0 osc1 nz oscMix noiseMix : ℚ) : ℚ :=
  let mainOscMix := osc0 * (1 - oscMix) + osc1 * oscMix
  let noiseSamp := nz * noiseMix
  mainOscMix * (1 - noiseMix) + noiseSamp

/-- The argument of `mFilter.freq(...)` inside the sample loop. -/
def filterCutoff (filtFreq env filtEnvDepth : ℚ) : ℚ :=
  filtFreq + (env * filtEnvDepth)

/-! ## `MiniSubWaves` (the class is the same text in both demo files) -/

/-- Data members of `MiniSubWaves` (the mesh is graphics data and is left out). -/
structure MiniSubWaves (G : Gamma) where
  mNoiseMix : ℚ
  mPan : G.Pan
  mAmpEnv : G.ADSR
  mFiltEnv : G.ADSR
  mEnvFollow : G.EnvFollow
  mOsc0 : G.Saw
  mOsc1 : G.DWO
  mNoise : G.NoiseWhite
  mFilter : G.Biquad

namespace MiniSubWaves

/-- The `createInternalTriggerParameter` calls of `MiniSubWaves::init`, in source order. -/
def initParams : List ParamDecl :=
  [ ⟨"amplitude", 0.3, 0.0, 1.0⟩,
    ⟨"frequency", 60, 20, 5000⟩,
    ⟨"oscMix", 0.5, 0.0, 1.0⟩,
    ⟨"noise", 0.0, 0.0, 1.0⟩,
    ⟨"ampEnvAtk", 0.1, 0.01, 2.0⟩,
    ⟨"ampEnvDec", 0.01, 0.01, 2.0⟩,
    ⟨"ampEnvSus", 0.8, 0.0, 1.0⟩,
    ⟨"ampEnvRel", 0.4, 0.05, 2.0⟩,
    ⟨"ampEnvCve", 4.0, -10.0, 10.0⟩,
    ⟨"filtEnvAtk", 0.1, 0.01, 2.0⟩,
    ⟨"filtEnvDec", 0.01, 0.01, 2.0⟩,
    ⟨"filtEnvSus", 0.8, 0.0, 1.0⟩,
    ⟨"filtEnvRel", 0.4, 0.05, 2.0⟩,
    ⟨"filtEnvCve", 4.0, -10.0, 10.0⟩,
    ⟨"filtEnvDpth", 0.0, -400, 4800⟩,
    ⟨"filtFreq", 2400.0, 10.0, 5000⟩,
    ⟨"filtRes", 0.1, 0.01, 10⟩,
    ⟨"pan", 0.0, -1.0, 1.0⟩ ]

/-- The envelope configuration done by `MiniSubWaves::init`. -/
def init (G : Gamma) (v : MiniSubWaves G) : MiniSubWaves G :=
  { v with
    mAmpEnv := G.adsrSustainPoint 2 (G.adsrLevels 0 1.0 1.0 0 (G.adsrCurve 0 v.mAmpEnv))
    mFiltEnv := G.adsrSustainPoint 2 (G.adsrLevels 0 1.0 1.0 0 (G.adsrCurve 0 v.mFiltEnv)) }

/-- The method `MiniSubWaves::updateFromParameters`. -/
def updateFromParameters (G : Gamma) (get : String → ℚ) (v : MiniSubWaves G) :
    MiniSubWaves G :=
  { v with
    mOsc0 := G.sawFreq (get "frequency") v.mOsc0
    mOsc1 := G.dwoFreq (get "frequency") v.mOsc1
    mAmpEnv :=
      G.adsrCurve (get "ampEnvCve")
        (G.adsrRelease (get "ampEnvRel")
          (G.adsrSustain (get "ampEnvSus")
            (G.adsrDecay (get "ampEnvDec")
              (G.adsrAttack (get "ampEnvAtk") v.mAmpEnv))))
    mPan := G.panPos (get "pan") v.mPan
    mFilter := G.biquadRes (get "filtRes") (G.biquadFreq (get "filtFreq") v.mFilter)
    mFiltEnv :=
      G.adsrCurve (get "filtEnvCve")
        (G.adsrRelease (get "filtEnvRel")
          (G.adsrSustain (get "filtEnvSus")
            (G.adsrDecay (get "filtEnvDec")
              (G.adsrAttack (get "filtEnvAtk") v.mFiltEnv)))) }

/-- One pass through the body of the `while (io())` loop of `MiniSubWaves::onProcess`:
the voice after the sample and the frame after the two `+=`. -/
def sample (G : Gamma) (amp filtFreq filtEnvDepth oscMix noiseMix : ℚ)
    (v : MiniSubWaves G) (out : Frame) : MiniSubWaves G × Frame :=
  let o0 := G.sawTick v.mOsc0
  let o1 := G.dwoSqr v.mOsc1
  let nz := G.noiseTick v.mNoise
  let s1 := preFilterSample o0.1 o1.1 nz.1 oscMix noiseMix
  let fe := G.adsrTick v.mFiltEnv
  let flt := G.biquadTick s1 (G.biquadFreq (filterCutoff filtFreq fe.1 filtEnvDepth) v.mFilter)
  let ae := G.adsrTick v.mAmpEnv
  let s := G.panApply v.mPan (flt.1 * (ae.1 * amp))
  ({ v with mOsc0 := o0.2, mOsc1 := o1.2, mNoise := nz.2, mFiltEnv := fe.2,
            mFilter := flt.2, mAmpEnv := ae.2 },
   (out.1 + s.1, out.2 + s.2))

/-- The `while (io())` loop of `MiniSubWaves::onProcess` over the frames of a block. -/
def render (G : Gamma) (amp filtFreq filtEnvDepth oscMix noiseMix : ℚ) :
    MiniSubWaves G → AudioBlock → MiniSubWaves G × AudioBlock
  | v, [] => (v, [])
  | v, out :: rest =>
    let r := sample G amp filtFreq filtEnvDepth oscMix noiseMix v out
    let rs := render G amp filtFreq filtEnvDepth oscMix noiseMix r.1 rest
    (rs.1, r.2 :: rs.2)

/-- The method `MiniSubWaves::onProcess(AudioIOData &)`. -/
def onProcess (G : Gamma) (get : String → ℚ) (v : MiniSubWaves G) (io : AudioBlock) :
    Processed (MiniSubWaves G) :=
  let v := updateFromParameters G get v
  let amp := get "amplitude"
  let filtFreq := get "filtFreq"
  let filtEnvDepth := get "filtEnvDpth"
  let oscMix := get "oscMix"
  let noiseMix := get "noise"
  let r := render G amp filtFreq filtEnvDepth oscMix noiseMix v io
  { voice := r.1
    block := r.2
    freed := G.adsrDone r.1.mAmpEnv && decide (G.envFollowValue r.1.mEnvFollow < 0.001) }

/-- The method `MiniSubWaves::onProcess(Graphics &)`: the calls made on `g`, in order. -/
def onProcessGraphics (G : Gamma) (get : String → ℚ) (v : MiniSubWaves G) :
    List GraphicsCall :=
  let frequency := get "frequency"
  let amplitude := get "amplitude"
  let scaling : ℚ := 0.1
  [ .pushMatrix,
    .translate amplitude amplitude (-4),
    .scale (scaling * frequency / 200) (scaling * frequency / 400) (scaling * 1),
    .color (G.envFollowValue v.mEnvFollow) (frequency / 1000)
      (G.envFollowValue v.mEnvFollow * 10) 0.4,
    .draw,
    .popMatrix ]

/-- The method `MiniSubWaves::onTriggerOn`. -/
def onTriggerOn (G : Gamma) (get : String → ℚ) (v : MiniSubWaves G) : MiniSubWaves G :=
  let v := updateFromParameters G get v
  { v with mAmpEnv := G.adsrReset v.mAmpEnv, mFiltEnv := G.adsrReset v.mFiltEnv }

/-- The method `MiniSubWaves::onTriggerOff`. -/
def onTriggerOff (G : Gamma) (v : MiniSubWaves G) : MiniSubWaves G :=
  { v with mAmpEnv := G.adsrTriggerRelease v.mAmpEnv
           mFiltEnv := G.adsrTriggerRelease v.mFiltEnv }

end MiniSubWaves

/-! ## `KPSWaves` -/

/-- Data members of `KPSWaves` (the mesh is left out). -/
structure KPSWaves (G : Gamma) where
  mNoiseMix : ℚ
  mPan : G.Pan
  mAmpEnv : G.ADSR
  mFiltEnv : G.ADSR
  mEnvFollow : G.EnvFollow
  mOsc0 : G.Saw
  mOsc1 : G.DWO
  mNoise : G.NoiseWhite
  mFilter : G.Biquad
  mComb : G.Comb

namespace KPSWaves

/-- The `createInternalTriggerParameter` calls of `KPSWaves::init`, in source order. -/
def initParams : List ParamDecl :=
  [ ⟨"amplitude", 0.3, 0.0, 1.0⟩,
    ⟨"frequency", 60, 20, 5000⟩,
    ⟨"oscMix", 0.5, 0.0, 1.0⟩,
    ⟨"noise", 0.0, 0.0, 1.0⟩,
    ⟨"ampEnvAtk", 0.1, 0.01, 2.0⟩,
    ⟨"ampEnvDec", 0.01, 0.01, 2.0⟩,
    ⟨"ampEnvSus", 0.8, 0.0, 1.0⟩,
    ⟨"ampEnvRel", 0.4, 0.05, 2.0⟩,
    ⟨"ampEnvCve", 4.0, -10.0, 10.0⟩,
    ⟨"filtEnvAtk", 0.1, 0.01, 2.0⟩,
    ⟨"filtEnvDec", 0.01, 0.01, 2.0⟩,
    ⟨"filtEnvSus", 0.8, 0.0, 1.0⟩,
    ⟨"filtEnvRel", 0.4, 0.05, 2.0⟩,
    ⟨"filtEnvCve", 4.0, -10.0, 10.0⟩,
    ⟨"filtEnvDpth", 0.0, -400, 4800⟩,
    ⟨"filtFreq", 2400.0, 10.0, 5000⟩,
    ⟨"filtRes", 0.1, 0.01, 10⟩,
    ⟨"combDel", 0.002268, 0.001, 1.0⟩,
    ⟨"combFbk", 0.5, -1.0, 1.0⟩,
    ⟨"combFfw", 0.0, -1.0, 1.0⟩,
    ⟨"combDec", 0.0, 0.001, 1.0⟩,
    ⟨"pan", 0.0, -1.0, 1.0⟩ ]

/-- The envelope configuration done by `KPSWaves::init`. -/
def init (G : Gamma) (v : KPSWaves G) : KPSWaves G :=
  { v with
    mAmpEnv := G.adsrSustainPoint 2 (G.adsrLevels 0 1.0 1.0 0 (G.adsrCurve 0 v.mAmpEnv))
    mFiltEnv := G.adsrSustainPoint 2 (G.adsrLevels 0 1.0 1.0 0 (G.adsrCurve 0 v.mFiltEnv)) }

/-- The argument of `mComb.maxDelay(...)` in `KPSWaves::updateFromParameters`. -/
def maxDelayArg (combDel : ℚ) : ℚ := combDel * 1.1

/-- The argument of `mComb.delay(...)` in the sample loop, with the literal that the
source writes twice as the first argument: `(k / noteFreq) / k`. -/
def sampleDelayWith (k noteFreq : ℚ) : ℚ := (k / noteFreq) / k

/-- The argument of `mComb.delay(...)` in the sample loop of `KPSWaves::onProcess`. -/
def sampleDelayArg (noteFreq : ℚ) : ℚ := sampleDelayWith 44100.0 noteFreq

/-- The method `KPSWaves::updateFromParameters`. -/
def updateFromParameters (G : Gamma) (get : String → ℚ) (v : KPSWaves G) : KPSWaves G :=
  { v with
    mOsc0 := G.sawFreq (get "frequency") v.mOsc0
    mOsc1 := G.dwoFreq (get "frequency") v.mOsc1
    mAmpEnv :=
      G.adsrCurve (get "ampEnvCve")
        (G.adsrRelease (get "ampEnvRel")
          (G.adsrSustain (get "ampEnvSus")
            (G.adsrDecay (get "ampEnvDec")
              (G.adsrAttack (get "ampEnvAtk") v.mAmpEnv))))
    mPan := G.panPos (get "pan") v.mPan
    mFilter := G.biquadRes (get "filtRes") (G.biquadFreq (get "filtFreq") v.mFilter)
    mFiltEnv :=
      G.adsrCurve (get "filtEnvCve")
        (G.adsrRelease (get "filtEnvRel")
          (G.adsrSustain (get "filtEnvSus")
            (G.adsrDecay (get "filtEnvDec")
              (G.adsrAttack (get "filtEnvAtk") v.mFiltEnv))))
    mComb :=
      G.combDecay (get "combDec")
        (G.combFbk (get "combFbk")
          (G.combFfd (get "combFfw")
            (G.combDelay (get "combDel")
              (G.combMaxDelay (maxDelayArg (get "combDel")) v.mComb)))) }

/-- One pass through the body of the `while (io())` loop of `KPSWaves::onProcess`. -/
def sample (G : Gamma) (amp filtFreq filtEnvDepth oscMix noiseMix noteFreq : ℚ)
    (v : KPSWaves G) (out : Frame) : KPSWaves G × Frame :=
  let o0 := G.sawTick v.mOsc0
  let o1 := G.dwoSqr v.mOsc1
  let nz := G.noiseTick v.mNoise
  let s1 := preFilterSample o0.1 o1.1 nz.1 oscMix noiseMix
  let fe := G.adsrTick v.mFiltEnv
  let flt := G.biquadTick s1 (G.biquadFreq (filterCutoff filtFreq fe.1 filtEnvDepth) v.mFilter)
  let cmb := G.combTick flt.1 (G.combDelay (sampleDelayArg noteFreq) v.mComb)
  let ae := G.adsrTick v.mAmpEnv
  let s := G.panApply v.mPan (cmb.1 * (ae.1 * amp))
  ({ v with mOsc0 := o0.2, mOsc1 := o1.2, mNoise := nz.2, mFiltEnv := fe.2,
            mFilter := flt.2, mComb := cmb.2, mAmpEnv := ae.2 },
   (out.1 + s.1, out.2 + s.2))

/-- The `while (io())` loop of `KPSWaves::onProcess` over the frames of a block. -/
def render (G : Gamma) (amp filtFreq filtEnvDepth oscMix noiseMix noteFreq : ℚ) :
    KPSWaves G → AudioBlock → KPSWaves G × AudioBlock
  | v, [] => (v, [])
  | v, out :: rest =>
    let r := sample G amp filtFreq filtEnvDepth oscMix noiseMix noteFreq v out
    let rs := render G amp filtFreq filtEnvDepth oscMix noiseMix noteFreq r.1 rest
    (rs.1, r.2 :: rs.2)

/-- The method `KPSWaves::onProcess(AudioIOData &)`. -/
def onProcess (G : Gamma) (get : String → ℚ) (v : KPSWaves G) (io : AudioBlock) :
    Processed (KPSWaves G) :=
  let v := updateFromParameters G get v
  let amp := get "amplitude"
  let filtFreq := get "filtFreq"
  let filtEnvDepth := get "filtEnvDpth"
  let oscMix := get "oscMix"
  let noiseMix := get "noise"
  let noteFreq := get "frequency"
  let r := render G amp filtFreq filtEnvDepth oscMix noiseMix noteFreq v io
  { voice := r.1
    block := r.2
    freed := G.adsrDone r.1.mAmpEnv && decide (G.envFollowValue r.1.mEnvFollow < 0.001) }

/-- The method `KPSWaves::onProcess(Graphics &)`: the calls made on `g`, in order. -/
def onProcessGraphics (G : Gamma) (get : String → ℚ) (v : KPSWaves G) :
    List GraphicsCall :=
  let frequency := get "frequency"
  let amplitude := get "amplitude"
  let scaling : ℚ := 0.1
  [ .pushMatrix,
    .translate amplitude amplitude (-4),
    .scale (scaling * frequency / 200) (scaling * frequency / 400) (scaling * 1),
    .color (G.envFollowValue v.mEnvFollow) (frequency / 1000)
      (G.envFollowValue v.mEnvFollow * 10) 0.4,
    .draw,
    .popMatrix ]

/-- The method `KPSWaves::onTriggerOn`. -/
def onTriggerOn (G : Gamma) (get : String → ℚ) (v : KPSWaves G) : KPSWaves G :=
  let v := updateFromParameters G get v
  { v with mAmpEnv := G.adsrReset v.mAmpEnv, mFiltEnv := G.adsrReset v.mFiltEnv }

/-- The method `KPSWaves::onTriggerOff`. -/
def onTriggerOff (G : Gamma) (v : KPSWaves G) : KPSWaves G :=
  { v with mAmpEnv := G.adsrTriggerRelease v.mAmpEnv
           mFiltEnv := G.adsrTriggerRelease v.mFiltEnv }

end KPSWaves

/-! ## `FM` -/

/-- Data members of `FM` (the mesh is left out). -/
structure FM (G : Gamma) where
  mPan : G.Pan
  mAmpEnv : G.ADSR
  mModEnv : G.ADSR
  mEnvFollow : G.EnvFollow
  car : G.Sine
  mod : G.Sine

namespace FM

/-- The `createInternalTriggerParameter` calls of `FM::init`, in source order. -/
def initParams : List ParamDecl :=
  [ ⟨"amplitude", 0.5, 0.0, 1.0⟩,
    ⟨"freq", 440, 10, 4000.0⟩,
    ⟨"attackTime", 0.1, 0.01, 3.0⟩,
    ⟨"releaseTime", 0.1, 0.1, 10.0⟩,
    ⟨"pan", 0.0, -1.0, 1.0⟩,
    ⟨"idx1", 0.01, 0.0, 10.0⟩,
    ⟨"idx2", 7, 0.0, 10.0⟩,
    ⟨"idx3", 5, 0.0, 10.0⟩,
    ⟨"carMul", 1, 0.0, 20.0⟩,
    ⟨"modMul", 1.0007, 0.0, 20.0⟩,
    ⟨"sustain", 0.75, 0.1, 1.0⟩ ]

/-- The envelope configuration done by `FM::init`. -/
def init (G : Gamma) (v : FM G) : FM G :=
  { v with mAmpEnv := G.adsrLevels 0 1 1 0 v.mAmpEnv }

/-- The local `modFreq` of `FM::onProcess`, the argument of `mod.freq(...)`, from the
values read for "freq" and "modMul". -/
def modFreq (freq modMul : ℚ) : ℚ := freq * modMul

/-- The local `carBaseFreq` of `FM::onProcess`, from the values read for "freq" and
"carMul". -/
def carBaseFreq (freq carMul : ℚ) : ℚ := freq * carMul

/-- The local `modScale` of `FM::onProcess`, from the values read for "freq" and
"modMul". -/
def modScale (freq modMul : ℚ) : ℚ := freq * modMul

/-- The argument of `car.freq(...)` inside the sample loop, for modulator output `m`
and modulation-envelope value `e`. -/
def carFreqArg (carBaseFreq m e modScale : ℚ) : ℚ := carBaseFreq + m * e * modScale

/-- One pass through the body of the `while (io())` loop of `FM::onProcess`. -/
def sample (G : Gamma) (carBaseFreq modScale amp : ℚ) (v : FM G) (out : Frame) :
    FM G × Frame :=
  let m := G.sineTick v.mod
  let me := G.adsrTick v.mModEnv
  let c := G.sineTick (G.sineFreq (carFreqArg carBaseFreq m.1 me.1 modScale) v.car)
  let ae := G.adsrTick v.mAmpEnv
  let s1 := c.1 * ae.1 * amp
  let ef := G.envFollowTick s1 v.mEnvFollow
  let s := G.panApply v.mPan s1
  ({ v with mod := m.2, mModEnv := me.2, car := c.2, mAmpEnv := ae.2, mEnvFollow := ef.2 },
   (out.1 + s.1, out.2 + s.2))

/-- The `while (io())` loop of `FM::onProcess` over the frames of a block. -/
def render (G : Gamma) (carBaseFreq modScale amp : ℚ) : FM G → AudioBlock → FM G × AudioBlock
  | v, [] => (v, [])
  | v, out :: rest =>
    let r := sample G carBaseFreq modScale amp v out
    let rs := render G carBaseFreq modScale amp r.1 rest
    (rs.1, r.2 :: rs.2)

/-- The method `FM::onProcess(AudioIOData &)`. -/
def onProcess (G : Gamma) (get : String → ℚ) (v : FM G) (io : AudioBlock) :
    Processed (FM G) :=
  let modFreq := modFreq (get "freq") (get "modMul")
  let v := { v with mod := G.sineFreq modFreq v.mod }
  let carBaseFreq := carBaseFreq (get "freq") (get "carMul")
  let modScale := modScale (get "freq") (get "modMul")
  let amp := get "amplitude"
  let r := render G carBaseFreq modScale amp v io
  { voice := r.1
    block := r.2
    freed := G.adsrDone r.1.mAmpEnv && decide (G.envFollowValue r.1.mEnvFollow < 0.001) }

/-- The method `FM::onProcess(Graphics &)`: the calls made on `g`, in order. -/
def onProcessGraphics (G : Gamma) (get : String → ℚ) (v : FM G) : List GraphicsCall :=
  let scaling := get "amplitude" * 1
  [ .pushMatrix,
    .translate (get "freq" / 300 - 2) (get "modAmt" / 25 - 1) (-4),
    .scale scaling scaling (scaling * 1),
    .colorHSV (get "modMul" / 20) 1 (G.envFollowValue v.mEnvFollow * 10),
    .draw,
    .popMatrix ]

/-- The method `FM::onTriggerOn`. -/
def onTriggerOn (G : Gamma) (get : String → ℚ) (v : FM G) : FM G :=
  let modEnv :=
    G.adsrSetLevel 3 (get "idx3")
      (G.adsrSetLevel 2 (get "idx2")
        (G.adsrSetLevel 1 (get "idx2")
          (G.adsrSetLevel 0 (get "idx1") v.mModEnv)))
  let ampEnv := G.adsrSetLength 0 (get "attackTime") v.mAmpEnv
  let modEnv := G.adsrSetLength 0 (get "attackTime") modEnv
  let ampEnv := G.adsrSetLength 1 0.001 ampEnv
  let modEnv := G.adsrSetLength 1 0.001 modEnv
  let ampEnv := G.adsrSetLength 2 (get "releaseTime") ampEnv
  let modEnv := G.adsrSetLength 2 (get "releaseTime") modEnv
  { v with
    mPan := G.panPos (get "pan") v.mPan
    mAmpEnv := G.adsrReset ampEnv
    mModEnv := G.adsrReset modEnv }

/-- The method `FM::onTriggerOff`. -/
def onTriggerOff (G : Gamma) (v : FM G) : FM G :=
  { v with mAmpEnv := G.adsrTriggerRelease v.mAmpEnv
           mModEnv := G.adsrTriggerRelease v.mModEnv }

end FM

/-! ## `MyApp::playNote` -/

/-- The enumeration `Instrument`. -/
inductive Instrument where
  | INSTR_MSCHORDS
  | INSTR_KPS
  | INSTR_MSBASS
  | INSTR_FM
  | NUM_INSTRUMENTS
deriving DecidableEq, Repr

/-- The voice classes that `playNote` asks the synth for (`getVoice<...>()`). -/
inductive VoiceClass where
  | miniSubWaves
  | kpsWaves
  | fm
deriving DecidableEq, Repr

/-- The parameters declared by the `init()` of a voice class. -/
def VoiceClass.initParams : VoiceClass → List ParamDecl
  | .miniSubWaves => MiniSubWaves.initParams
  | .kpsWaves => KPSWaves.initParams
  | .fm => FM.initParams

/-- What one `playNote` call does: the voice class it obtained (`none` for `nullptr`),
the `setInternalParameterValue(name, value)` calls in order, and the arguments of
`addVoiceFromNow(voice, time, duration)`. -/
structure PlayedNote where
  voice : Option VoiceClass
  sets : List (String × ℚ)
  time : ℚ
  duration : ℚ
deriving DecidableEq

set_option linter.unusedVariables false in
/-- The method `MyApp::playNote`. -/
def playNote (freq time duration amp attack decay : ℚ) (instrument : Instrument) :
    PlayedNote :=
  match instrument with
  | .INSTR_MSCHORDS =>
    { voice := some .miniSubWaves
      sets :=
        [ ("amplitude", amp), ("oscMix", 0.1), ("frequency", freq),
          ("ampEnvAtk", 0.1), ("ampEnvDec", 0.3), ("ampEnvSus", 0.6), ("ampEnvRel", 0.2),
          ("filtEnvAtk", 0.25), ("filtEnvDec", 0.2), ("filtEnvSus", 0.05),
          ("filtEnvRel", 0.1), ("filtEnvDpth", 1800), ("filtEnvCve", 1.0),
          ("filtFreq", 1150), ("filtRes", 1.0),
          ("pan", 0) ]
      time := time
      duration := duration }
  | .INSTR_KPS =>
    { voice := some .kpsWaves
      sets :=
        [ ("amplitude", amp), ("oscMix", 0.23), ("noise", 0.996), ("frequency", freq),
          ("ampEnvAtk", 0.315), ("ampEnvDec", 1.342), ("ampEnvSus", 0.651),
          ("ampEnvRel", 0.4),
          ("filtEnvAtk", 0.233), ("filtEnvDec", 0.849), ("filtEnvSus", 0.798),
          ("filtEnvRel", 0.261), ("filtEnvDpth", 1032), ("filtEnvCve", 4.0),
          ("filtFreq", 926), ("filtRes", 0.1),
          ("combDec", 0.849), ("combDel", 0.002268), ("combFbk", 0.314),
          ("combFfw", 0.135),
          ("pan", 0) ]
      time := time
      duration := duration }
  | .INSTR_MSBASS =>
    { voice := some .miniSubWaves
      sets :=
        [ ("amplitude", amp), ("oscMix", 0.7), ("frequency", freq / 2),
          ("ampEnvAtk", 0.01), ("ampEnvDec", 0.35), ("ampEnvSus", 0.6), ("ampEnvRel", 0.2),
          ("filtEnvAtk", 0.05), ("filtEnvDec", 0.25), ("filtEnvSus", 0.0),
          ("filtEnvRel", 0.1), ("filtEnvDpth", 1000), ("filtEnvCve", -1.0),
          ("filtFreq", 940), ("filtRes", 2.6) ]
      time := time
      duration := duration }
  | .INSTR_FM =>
    { voice := some .fm
      sets :=
        [ ("amplitude", amp), ("freq", freq), ("attackTime", 0.1), ("releaseTime", 0.1),
          ("pan", 1.0) ]
      time := time
      duration := duration }
  | .NUM_INSTRUMENTS =>
    { voice := none, sets := [], time := time, duration := duration }

/-! ## Predicates used by the statements -/

/-- The parameter values right after `init()`: each declared name reads its default;
a name that was never declared reads `0`. -/
def defaultsOf (decls : List ParamDecl) (name : String) : ℚ :=
  match decls.find? (fun d => d.name == name) with
  | some d => d.defaultValue
  | none => 0

/-- The names declared by a list of `createInternalTriggerParameter` calls. -/
def declaredNames (decls : List ParamDecl) : List String := decls.map (·.name)

/-- A declaration whose default lies within its bounds and whose bounds are proper. -/
def ParamDecl.wellBounded (d : ParamDecl) : Prop :=
  d.minValue ≤ d.defaultValue ∧ d.defaultValue ≤ d.maxValue ∧ d.minValue < d.maxValue

/-- The names that the methods of `MiniSubWaves` pass to `getInternalParameterValue`
(`updateFromParameters`, then the audio `onProcess`; the graphics `onProcess` and
`onTriggerOn` read no further name). -/
def MiniSubWaves.readNames : List String :=
  [ "frequency", "ampEnvAtk", "ampEnvDec", "ampEnvSus", "ampEnvRel", "ampEnvCve", "pan",
    "filtFreq", "filtRes", "filtEnvAtk", "filtEnvDec", "filtEnvSus", "filtEnvRel",
    "filtEnvCve", "amplitude", "filtEnvDpth", "oscMix", "noise" ]

/-- The names that the methods of `KPSWaves` pass to `getInternalParameterValue`. -/
def KPSWaves.readNames : List String :=
  [ "frequency", "ampEnvAtk", "ampEnvDec", "ampEnvSus", "ampEnvRel", "ampEnvCve", "pan",
    "filtFreq", "filtRes", "filtEnvAtk", "filtEnvDec", "filtEnvSus", "filtEnvRel",
    "filtEnvCve", "combDel", "combFfw", "combFbk", "combDec",
    "amplitude", "filtEnvDpth", "oscMix", "noise" ]

/-- The names that the audio `onProcess` and `onTriggerOn` of `FM` pass to
`getInternalParameterValue`. -/
def FM.audioReadNames : List String :=
  [ "freq", "modMul", "carMul", "amplitude",
    "idx1", "idx2", "idx3", "attackTime", "releaseTime", "pan" ]

/-- The names that `FM::onProcess(Graphics &)` passes to `getInternalParameterValue`. -/
def FM.graphicsReadNames : List String :=
  [ "freq", "modAmt", "amplitude", "modMul" ]

/-- The constant `SEMITONE_RATIO`: a `float`, so its value is the float nearest to the
literal 1.0594630943592952646, which is 8887421 / 2^23. -/
def SEMITONE_RATIO : ℚ := 8887421 / 8388608

/-- Rounding to the nearest integer, ties to the even one. -/
def roundHalfEven (y : ℚ) : ℤ :=
  if Int.fract y < 1 / 2 then ⌊y⌋
  else if 1 / 2 < Int.fract y then ⌊y⌋ + 1
  else if ⌊y⌋ % 2 = 0 then ⌊y⌋ else ⌊y⌋ + 1

/-- A positive value rounded to 24 significant bits, to nearest with ties to even, as the
conversion to `float` does before the range check; values below `2^-126` are rounded to a
multiple of `2^-149`. -/
def roundToFloat (x : ℚ) : ℚ :=
  let ulp : ℚ := 2 ^ (max (Int.log 2 x) (-126) - 23)
  (roundHalfEven (x / ulp) : ℚ) * ulp

/-- The conversion to `float` of a value that is not negative: `⊤`, for `+inf`, when the
value or the value rounded to 24 significant bits reaches `2^128`, and the rounded value
otherwise.  Only values above 0 are converted in this file; 0 and below give 0. -/
def toFloat (x : ℚ) : WithTop ℚ :=
  if x ≤ 0 then ((0 : ℚ) : WithTop ℚ)
  else if 2 ^ 128 ≤ x then ⊤
  else if 2 ^ 128 ≤ roundToFloat x then ⊤
  else ((roundToFloat x : ℚ) : WithTop ℚ)

/-- The call `std::pow(x, k)` with an `int` exponent `k`, in exact arithmetic: `x ^ k`,
with a negative exponent giving the inverse of the power. -/
def std_pow (x : ℚ) (k : ℤ) : ℚ :=
  if 0 ≤ k then x ^ k.toNat else (x ^ (-k).toNat)⁻¹

/-- The value of the expression `440 * std::pow(SEMITONE_RATIO, note - 0x45)` of
`note_freq`, which is evaluated in `double` (taken exact here).  The `uint16_t` parameter
holds the note number modulo `2^16`; in `note - 0x45` it is promoted to `int`, so the
exponent is a signed integer. -/
def note_freq_exact (note : ℕ) : ℚ :=
  440 * std_pow SEMITONE_RATIO (((note % 65536 : ℕ) : ℤ) - 0x45)

/-- The function `note_freq`: the value of its expression converted to the `float` it
returns (`⊤` stands for `+inf`). -/
def note_freq (note : ℕ) : WithTop ℚ := toFloat (note_freq_exact note)

/-- The class `TimeSignature`. -/
structure TimeSignature where
  upper : ℤ
  lower : ℤ
deriving DecidableEq

/-- The default constructor `TimeSignature()`. -/
def TimeSignature.new : TimeSignature := { upper := 7, lower := 4 }

/-- The data members of the class `Note`; `Note.mk` is the six-argument constructor. -/
structure Note where
  freq : ℚ
  time : ℚ
  duration : ℚ
  amp : ℚ
  attack : ℚ
  decay : ℚ
deriving DecidableEq

namespace Note

/-- The constructor `Note(const Note &n, float beatOffset, float ampMult)`. -/
def offset (n : Note) (beatOffset ampMult : ℚ) : Note :=
  { freq := n.freq
    time := n.time + beatOffset
    duration := n.duration
    amp := n.amp * ampMult
    attack := n.attack
    decay := n.decay }

/-- The copy constructor `Note(const Note &n)`. -/
def copy (n : Note) : Note :=
  { freq := n.freq
    time := n.time
    duration := n.duration
    amp := n.amp
    attack := n.attack
    decay := n.decay }

/-- The getter `getFreq`. -/
def getFreq (n : Note) : ℚ := n.freq

/-- The getter `getTime`. -/
def getTime (n : Note) : ℚ := n.time

/-- The getter `getDuration`. -/
def getDuration (n : Note) : ℚ := n.duration

/-- The getter `getAmp`. -/
def getAmp (n : Note) : ℚ := n.amp

/-- The getter `getAttack`. -/
def getAttack (n : Note) : ℚ := n.attack

/-- The getter `getDecay`. -/
def getDecay (n : Note) : ℚ := n.decay

end Note

/-- The data members of the class `Sequence`. -/
structure Sequence where
  ts : TimeSignature
  notes : List Note
deriving DecidableEq

namespace Sequence

/-- The constructor `Sequence(TimeSignature ts)`. -/
def new (ts : TimeSignature) : Sequence := { ts := ts, notes := [] }

/-- The method `Sequence::add`: the by-value parameter is a copy of the argument and
`push_back` appends it. -/
def add (t : Sequence) (n : Note) : Sequence :=
  { t with notes := t.notes ++ [Note.copy n] }

/-- The method `Sequence::getNotes`. -/
def getNotes (s : Sequence) : List Note := s.notes

/-- The loop of `Sequence::addSequence` over the notes still to be visited of the source. -/
def addSequenceLoop (startBeat ampMult : ℚ) : Sequence → List Note → Sequence
  | t, [] => t
  | t, note :: rest =>
    addSequenceLoop startBeat ampMult (t.add (Note.offset note startBeat ampMult)) rest

/-- The method `Sequence::addSequence`, called on `t` with a source `s` that is another
object: the pair of `t` and `s` after the call (the loop only reads `s`). -/
def addSequence (t s : Sequence) (startBeat ampMult : ℚ) : Sequence × Sequence :=
  (addSequenceLoop startBeat ampMult t s.getNotes, s)

end Sequence

/-- The loop of `MyApp::playSequence`: the `playNote` calls made so far, then one call per
remaining note. -/
def playSequenceLoop (secondsPerBeat : ℚ) (instrument : Instrument) :
    List PlayedNote → List Note → List PlayedNote
  | played, [] => played
  | played, note :: rest =>
    playSequenceLoop secondsPerBeat instrument
      (played ++
        [playNote note.getFreq (note.getTime * secondsPerBeat)
          (note.getDuration * secondsPerBeat) note.getAmp note.getAttack note.getDecay
          instrument])
      rest

/-- The method `MyApp::playSequence`: the `playNote` calls it makes, in order. -/
def playSequence (s : Sequence) (bpm : ℚ) (instrument : Instrument) : List PlayedNote :=
  let secondsPerBeat := 60.0 / bpm
  let notes := s.getNotes
  playSequenceLoop secondsPerBeat instrument [] notes

/-! ## Reading back the configuration of an envelope -/

/-- Read access to what has been configured on a `gam::ADSR<>` of `G` (`curve`, `levels()[i]`,
`lengths()[i]`), with the facts about the Gamma calls that the statements on envelope
configuration rely on: `curve(c)` stores `c`, `levels(a, b, c, d)` stores the four levels,
`levels()[i] = v` and `lengths()[i] = v` are array assignments that leave the other array
alone, and `reset()` and `env()` leave the configuration as it is. -/
structure EnvelopeView (G : Gamma) where
  curve : G.ADSR → ℚ
  level : G.ADSR → ℕ → ℚ
  length : G.ADSR → ℕ → ℚ
  curve_adsrCurve : ∀ (c : ℚ) (e : G.ADSR), curve (G.adsrCurve c e) = c
  curve_adsrReset : ∀ e : G.ADSR, curve (G.adsrReset e) = curve e
  curve_adsrTick : ∀ e : G.ADSR, curve (G.adsrTick e).2 = curve e
  level_adsrLevels : ∀ (a b c d : ℚ) (e : G.ADSR),
    level (G.adsrLevels a b c d e) 0 = a ∧ level (G.adsrLevels a b c d e) 1 = b ∧
    level (G.adsrLevels a b c d e) 2 = c ∧ level (G.adsrLevels a b c d e) 3 = d
  level_adsrSetLevel : ∀ (i : ℕ) (v : ℚ) (e : G.ADSR) (j : ℕ),
    level (G.adsrSetLevel i v e) j = if j = i then v else level e j
  level_adsrSetLength : ∀ (i : ℕ) (v : ℚ) (e : G.ADSR) (j : ℕ),
    level (G.adsrSetLength i v e) j = level e j
  level_adsrReset : ∀ (e : G.ADSR) (j : ℕ), level (G.adsrReset e) j = level e j
  length_adsrSetLength : ∀ (i : ℕ) (v : ℚ) (e : G.ADSR) (j : ℕ),
    length (G.adsrSetLength i v e) j = if j = i then v else length e j
  length_adsrReset : ∀ (e : G.ADSR) (j : ℕ), length (G.adsrReset e) j = length e j

/-! ## A small implementation of the library interface

Used as a concrete input in closed statements.  Every generator stores what its setters
are given; the oscillators and the noise source produce constant samples, the filters pass
their input through, and an envelope moves one breakpoint per sample, holding at its
sustain point until released. -/

/-- Envelope of `plainGamma`. -/
structure PlainEnv where
  curve : ℚ
  levels : ℕ → ℚ
  lengths : ℕ → ℚ
  sustainPoint : ℕ
  stage : ℕ
  released : Bool

/-- Oscillator of `plainGamma`: its frequency and the number of samples produced. -/
structure PlainOsc where
  freq : ℚ
  count : ℕ
deriving DecidableEq

/-- Filter of `plainGamma`. -/
structure PlainBiquad where
  freq : ℚ
  res : ℚ
deriving DecidableEq

/-- Comb of `plainGamma`. -/
structure PlainComb where
  maxDelay : ℚ
  delay : ℚ
  ffd : ℚ
  fbk : ℚ
  decay : ℚ
deriving DecidableEq

/-- The small implementation of the library interface. -/
def plainGamma : Gamma where
  ADSR := PlainEnv
  EnvFollow := ℚ
  Saw := PlainOsc
  DWO := PlainOsc
  NoiseWhite := ℕ
  Biquad := PlainBiquad
  Comb := PlainComb
  Pan := ℚ
  Sine := PlainOsc
  adsrCurve := fun c e => { e with curve := c }
  adsrLevels := fun a b c d e =>
    { e with levels := fun i => if i = 0 then a else if i = 1 then b else if i = 2 then c
                                else if i = 3 then d else e.levels i }
  adsrSustainPoint := fun n e => { e with sustainPoint := n }
  adsrAttack := fun v e => { e with lengths := Function.update e.lengths 0 v }
  adsrDecay := fun v e => { e with lengths := Function.update e.lengths 1 v }
  adsrSustain := fun v e => { e with levels := Function.update e.levels 2 (v * e.levels 1) }
  adsrRelease := fun v e => { e with lengths := Function.update e.lengths 2 v }
  adsrSetLevel := fun i v e => { e with levels := Function.update e.levels i v }
  adsrSetLength := fun i v e => { e with lengths := Function.update e.lengths i v }
  adsrTick := fun e =>
    (e.levels e.stage,
     if e.stage = e.sustainPoint ∧ e.released = false then e
     else { e with stage := min (e.stage + 1) 3 })
  adsrDone := fun e => decide (e.stage = 3)
  adsrReset := fun e => { e with stage := 0, released := false }
  adsrTriggerRelease := fun e => { e with released := true }
  envFollowTick := fun s _ => (|s|, |s|)
  envFollowValue := fun e => e
  sawFreq := fun f o => { o with freq := f }
  sawTick := fun o => (1, { o with count := o.count + 1 })
  dwoFreq := fun f o => { o with freq := f }
  dwoSqr := fun o => (-1, { o with count := o.count + 1 })
  noiseTick := fun n => (1 / 2, n + 1)
  biquadFreq := fun f b => { b with freq := f }
  biquadRes := fun r b => { b with res := r }
  biquadTick := fun s b => (s, b)
  combMaxDelay := fun v c => { c with maxDelay := v }
  combDelay := fun v c => { c with delay := v }
  combFfd := fun v c => { c with ffd := v }
  combFbk := fun v c => { c with fbk := v }
  combDecay := fun v c => { c with decay := v }
  combTick := fun s c => (s, c)
  panPos := fun v _ => v
  panApply := fun p s => (s * (1 - p) / 2, s * (1 + p) / 2)
  sineFreq := fun f o => { o with freq := f }
  sineTick := fun o => (1, { o with count := o.count + 1 })

/-- The configuration of a `PlainEnv` read back field by field. -/
def plainView : EnvelopeView plainGamma where
  curve := fun e => PlainEnv.curve e
  level := fun e => PlainEnv.levels e
  length := fun e => PlainEnv.lengths e
  curve_adsrCurve := fun _ _ => rfl
  curve_adsrReset := fun _ => rfl
  curve_adsrTick := fun e => by
    show ((plainGamma.adsrTick e).2 : PlainEnv).curve = PlainEnv.curve e
    simp only [plainGamma]
    split <;> rfl
  level_adsrLevels := fun _ _ _ _ _ => ⟨rfl, rfl, rfl, rfl⟩
  level_adsrSetLevel := fun i v e j => by
    show Function.update (PlainEnv.levels e) i v j = _
    simp [Function.update_apply]
  level_adsrSetLength := fun _ _ _ _ => rfl
  level_adsrReset := fun _ _ => rfl
  length_adsrSetLength := fun i v e j => by
    show Function.update (PlainEnv.lengths e) i v j = _
    simp [Function.update_apply]
  length_adsrReset := fun _ _ => rfl

/-- An envelope of `plainGamma` with nothing configured. -/
def PlainEnv.blank : PlainEnv :=
  { curve := 0, levels := fun _ => 0, lengths := fun _ => 0, sustainPoint := 0, stage := 0,
    released := false }

/-- A `MiniSubWaves` voice of `plainGamma` with nothing configured. -/
def MiniSubWaves.blank : MiniSubWaves plainGamma :=
  { mNoiseMix := 0, mPan := (0 : ℚ), mAmpEnv := PlainEnv.blank, mFiltEnv := PlainEnv.blank,
    mEnvFollow := (0 : ℚ), mOsc0 := (⟨0, 0⟩ : PlainOsc), mOsc1 := (⟨0, 0⟩ : PlainOsc),
    mNoise := (0 : ℕ), mFilter := (⟨0, 0⟩ : PlainBiquad) }

/-- A `KPSWaves` voice of `plainGamma` with nothing configured. -/
def KPSWaves.blank : KPSWaves plainGamma :=
  { mNoiseMix := 0, mPan := (0 : ℚ), mAmpEnv := PlainEnv.blank, mFiltEnv := PlainEnv.blank,
    mEnvFollow := (0 : ℚ), mOsc0 := (⟨0, 0⟩ : PlainOsc), mOsc1 := (⟨0, 0⟩ : PlainOsc),
    mNoise := (0 : ℕ), mFilter := (⟨0, 0⟩ : PlainBiquad),
    mComb := (⟨0, 0, 0, 0, 0⟩ : PlainComb) }

/-- An `FM` voice of `plainGamma` with nothing configured. -/
def FM.blank : FM plainGamma :=
  { mPan := (0 : ℚ), mAmpEnv := PlainEnv.blank, mModEnv := PlainEnv.blank,
    mEnvFollow := (0 : ℚ), car := (⟨0, 0⟩ : PlainOsc), mod := (⟨0, 0⟩ : PlainOsc) }

end Synth

/-! # Theorems -/

namespace Synth

/-! ## Helper lemmas: the sample loops only add to the block -/

theorem miniSubWaves_readNames_sound (G : Gamma) (get1 get2 : String → ℚ)
    (h : ∀ n ∈ MiniSubWaves.readNames, get1 n = get2 n) (v : MiniSubWaves G)
    (b : AudioBlock) :
    MiniSubWaves.updateFromParameters G get1 v = MiniSubWaves.updateFromParameters G get2 v ∧
    MiniSubWaves.onProcess G get1 v b = MiniSubWaves.onProcess G get2 v b ∧
    MiniSubWaves.onProcessGraphics G get1 v = MiniSubWaves.onProcessGraphics G get2 v ∧
    MiniSubWaves.onTriggerOn G get1 v = MiniSubWaves.onTriggerOn G get2 v := by
  simp only [MiniSubWaves.readNames, List.forall_mem_cons, List.not_mem_nil,
    false_implies, implies_true, and_true] at h
  obtain ⟨h1, h2, h3, h4, h5, h6, h7, h8, h9, h10, h11, h12, h13, h14, h15, h16, h17, h18⟩ := h
  simp only [MiniSubWaves.updateFromParameters, MiniSubWaves.onProcess,
    MiniSubWaves.onProcessGraphics, MiniSubWaves.onTriggerOn,
    h1, h2, h3, h4, h5, h6, h7, h8, h9, h10, h11, h12, h13, h14, h15, h16, h17, h18,
    and_self]

theorem miniSubWaves_readNames_declared :
    ∀ n ∈ MiniSubWaves.readNames, n ∈ declaredNames MiniSubWaves.initParams := by
  decide

theorem kpsWaves_readNames_sound (G : Gamma) (get1 get2 : String → ℚ)
    (h : ∀ n ∈ KPSWaves.readNames, get1 n = get2 n) (v : KPSWaves G) (b : AudioBlock) :
    KPSWaves.updateFromParameters G get1 v = KPSWaves.updateFromParameters G get2 v ∧
    KPSWaves.onProcess G get1 v b = KPSWaves.onProcess G get2 v b ∧
    KPSWaves.onProcessGraphics G get1 v = KPSWaves.onProcessGraphics G get2 v ∧
    KPSWaves.onTriggerOn G get1 v = KPSWaves.onTriggerOn G get2 v := by
  simp only [KPSWaves.readNames, List.forall_mem_cons, List.not_mem_nil,
    false_implies, implies_true, and_true] at h
  obtain ⟨h1, h2, h3, h4, h5, h6, h7, h8, h9, h10, h11, h12, h13, h14, h15, h16, h17, h18,
    h19, h20, h21, h22⟩ := h
  simp only [KPSWaves.updateFromParameters, KPSWaves.onProcess,
    KPSWaves.onProcessGraphics, KPSWaves.onTriggerOn,
    h1, h2, h3, h4, h5, h6, h7, h8, h9, h10, h11, h12, h13, h14, h15, h16, h17, h18,
    h19, h20, h21, h22, and_self]

theorem kpsWaves_readNames_declared :
    ∀ n ∈ KPSWaves.readNames, n ∈ declaredNames KPSWaves.initParams := by
  decide

theorem fm_audioReadNames_sound (G : Gamma) (get1 get2 : String → ℚ)
    (h : ∀ n ∈ FM.audioReadNames, get1 n = get2 n) (v : FM G) (b : AudioBlock) :
    FM.onProcess G get1 v b = FM.onProcess G get2 v b ∧
    FM.onTriggerOn G get1 v = FM.onTriggerOn G get2 v := by
  simp only [FM.audioReadNames, List.forall_mem_cons, List.not_mem_nil,
    false_implies, implies_true, and_true] at h
  obtain ⟨h1, h2, h3, h4, h5, h6, h7, h8, h9, h10⟩ := h
  simp only [FM.onProcess, FM.onTriggerOn, FM.modFreq, FM.carBaseFreq, FM.modScale,
    h1, h2, h3, h4, h5, h6, h7, h8, h9, h10, and_self]

theorem fm_audioReadNames_declared :
    ∀ n ∈ FM.audioReadNames, n ∈ declaredNames FM.initParams := by
  decide

theorem fm_graphicsReadNames_sound (G : Gamma) (get1 get2 : String → ℚ)
    (h : ∀ n ∈ FM.graphicsReadNames, get1 n = get2 n) (v : FM G) :
    FM.onProcessGraphics G get1 v = FM.onProcessGraphics G get2 v := by
  simp only [FM.graphicsReadNames, List.forall_mem_cons, List.not_mem_nil,
    false_implies, implies_true, and_true] at h
  obtain ⟨h1, h2, h3, h4⟩ := h
  simp only [FM.onProcessGraphics, h1, h2, h3, h4]

/-! ## Helper lemmas: overrides within declared bounds -/

/-- C1: at the coefficient boundaries the pre-filter sample of `MiniSubWaves::onProcess`
and `KPSWaves::onProcess` is a single source: `osc0` for noise 0 and oscMix 0, `osc1` for
noise 0 and oscMix 1, the noise sample for noise 1 and any oscMix; in the sample step of
both voices the filter is then fed that source alone. -/
theorem preFilterSample_boundaries (osc0 osc1 nz oscMix : ℚ) (G : Gamma)
    (amp filtFreq filtEnvDepth noteFreq : ℚ) (a : MiniSubWaves G) (k : KPSWaves G)
    (out : Frame) :
    (preFilterSample osc0 osc1 nz 0 0 = osc0 ∧
      preFilterSample osc0 osc1 nz 1 0 = osc1 ∧
      preFilterSample osc0 osc1 nz oscMix 1 = nz) ∧
    ((MiniSubWaves.sample G amp filtFreq filtEnvDepth 0 0 a out).1.mFilter =
        (G.biquadTick (G.sawTick a.mOsc0).1
          (G.biquadFreq (filterCutoff filtFreq (G.adsrTick a.mFiltEnv).1 filtEnvDepth)
            a.mFilter)).2 ∧
      (MiniSubWaves.sample G amp filtFreq filtEnvDepth 1 0 a out).1.mFilter =
        (G.biquadTick (G.dwoSqr a.mOsc1).1
          (G.biquadFreq (filterCutoff filtFreq (G.adsrTick a.mFiltEnv).1 filtEnvDepth)
            a.mFilter)).2 ∧
      (MiniSubWaves.sample G amp filtFreq filtEnvDepth oscMix 1 a out).1.mFilter =
        (G.biquadTick (G.noiseTick a.mNoise).1
          (G.biquadFreq (filterCutoff filtFreq (G.adsrTick a.mFiltEnv).1 filtEnvDepth)
            a.mFilter)).2) ∧
    ((KPSWaves.sample G amp filtFreq filtEnvDepth 0 0 noteFreq k out).1.mFilter =
        (G.biquadTick (G.sawTick k.mOsc0).1
          (G.biquadFreq (filterCutoff filtFreq (G.adsrTick k.mFiltEnv).1 filtEnvDepth)
            k.mFilter)).2 ∧
      (KPSWaves.sample G amp filtFreq filtEnvDepth 1 0 noteFreq k out).1.mFilter =
        (G.biquadTick (G.dwoSqr k.mOsc1).1
          (G.biquadFreq (filterCutoff filtFreq (G.adsrTick k.mFiltEnv).1 filtEnvDepth)
            k.mFilter)).2 ∧
      (KPSWaves.sample G amp filtFreq filtEnvDepth oscMix 1 noteFreq k out).1.mFilter =
        (G.biquadTick (G.noiseTick k.mNoise).1
          (G.biquadFreq (filterCutoff filtFreq (G.adsrTick k.mFiltEnv).1 filtEnvDepth)
            k.mFilter)).2) := by
  have h0 : ∀ x y z : ℚ, preFilterSample x y z 0 0 = x := by
    intro x y z; simp [preFilterSample]
  have h1 : ∀ x y z : ℚ, preFilterSample x y z 1 0 = y := by
    intro x y z; simp [preFilterSample]
  have h2 : ∀ x y z w : ℚ, preFilterSample x y z w 1 = z := by
    intro x y z w; simp [preFilterSample]
  refine ⟨⟨h0 _ _ _, h1 _ _ _, h2 _ _ _ _⟩, ⟨?_, ?_, ?_⟩, ⟨?_, ?_, ?_⟩⟩ <;>
    simp only [MiniSubWaves.sample, KPSWaves.sample, h0, h1, h2]

/-- C3 (the code departs from the claim): with all parameters at their declared defaults
(combDel 0.002268, frequency 60) the delay requested in the sample loop of
`KPSWaves::onProcess` exceeds the `maxDelay` that `updateFromParameters` has set; the same
happens for the `INSTR_KPS` preset of `playNote` at 370 Hz. The delay requested by
`updateFromParameters` itself stays below `maxDelay`. -/
theorem KPSWaves.sampleDelay_exceeds_maxDelay :
    KPSWaves.maxDelayArg (defaultsOf KPSWaves.initParams "combDel") <
      KPSWaves.sampleDelayArg (defaultsOf KPSWaves.initParams "frequency") ∧
    KPSWaves.maxDelayArg 0.002268 < KPSWaves.sampleDelayArg 370 ∧
    (("combDel", (0.002268 : ℚ)) ∈ (playNote 370 0 0.5 0.3 0.05 0.05 .INSTR_KPS).sets ∧
     ("frequency", (370 : ℚ)) ∈ (playNote 370 0 0.5 0.3 0.05 0.05 .INSTR_KPS).sets) ∧
    (∀ combDel : ℚ, 0.001 ≤ combDel → combDel ≤ KPSWaves.maxDelayArg combDel) := by
  refine ⟨?_, ?_, ?_, ?_⟩
  · simp [defaultsOf, KPSWaves.initParams, List.find?, KPSWaves.maxDelayArg,
      KPSWaves.sampleDelayArg, KPSWaves.sampleDelayWith]
    norm_num
  · simp [KPSWaves.maxDelayArg, KPSWaves.sampleDelayArg, KPSWaves.sampleDelayWith]
    norm_num
  · simp [playNote]
  · intro combDel h
    unfold KPSWaves.maxDelayArg
    have : (0 : ℚ) ≤ combDel := le_trans (by norm_num) h
    linarith [show combDel * 1.1 = combDel + combDel * (1 / 10) by ring]

/-- C5: each audio `onProcess` calls `free()` at the end of the block exactly when, on the
voice as it is after the last sample, the amplitude envelope is done and the envelope
follower reads below 0.001. -/
theorem onProcess_freed_iff (G : Gamma) (get : String → ℚ) (io : AudioBlock)
    (a : MiniSubWaves G) (k : KPSWaves G) (f : FM G) :
    ((MiniSubWaves.onProcess G get a io).freed = true ↔
      G.adsrDone (MiniSubWaves.onProcess G get a io).voice.mAmpEnv = true ∧
      G.envFollowValue (MiniSubWaves.onProcess G get a io).voice.mEnvFollow < 0.001) ∧
    ((KPSWaves.onProcess G get k io).freed = true ↔
      G.adsrDone (KPSWaves.onProcess G get k io).voice.mAmpEnv = true ∧
      G.envFollowValue (KPSWaves.onProcess G get k io).voice.mEnvFollow < 0.001) ∧
    ((FM.onProcess G get f io).freed = true ↔
      G.adsrDone (FM.onProcess G get f io).voice.mAmpEnv = true ∧
      G.envFollowValue (FM.onProcess G get f io).voice.mEnvFollow < 0.001) := by
  refine ⟨?_, ?_, ?_⟩
  · simp [MiniSubWaves.onProcess]
  · simp [KPSWaves.onProcess]
  · simp [FM.onProcess]

/-- C7 (the code departs from the claim): `FM::onProcess(Graphics &)` reads the parameter
"modAmt", which `FM::init` never declares: the calls made on `g` change with the value
looked up under that name, whatever the unit generators and the voice are. -/
theorem FM.onProcessGraphics_reads_undeclared :
    "modAmt" ∉ declaredNames FM.initParams ∧
    ∀ (G : Gamma) (v : FM G), ∃ get1 get2 : String → ℚ,
      (∀ n : String, n ≠ "modAmt" → get1 n = get2 n) ∧
      FM.onProcessGraphics G get1 v ≠ FM.onProcessGraphics G get2 v := by
  constructor
  · decide
  · intro G v
    refine ⟨fun _ => 0, fun n => if n = "modAmt" then 25 else 0, ?_, ?_⟩
    · intro n hn
      simp [hn]
    · simp [FM.onProcessGraphics]

/-- C8 (the code departs from the claim): `KPSWaves::init` declares "combDec" with the
default 0.0 below its minimum 0.001; every other declaration of the three `init()` methods
has its default within proper bounds. -/
theorem KPSWaves.combDec_default_below_min :
    (⟨"combDec", 0.0, 0.001, 1.0⟩ : ParamDecl) ∈ KPSWaves.initParams ∧
    ¬ ParamDecl.wellBounded ⟨"combDec", 0.0, 0.001, 1.0⟩ ∧
    (∀ d ∈ MiniSubWaves.initParams, d.wellBounded) ∧
    (∀ d ∈ FM.initParams, d.wellBounded) ∧
    (∀ d ∈ KPSWaves.initParams, d.name ≠ "combDec" → d.wellBounded) := by
  refine ⟨?_, ?_, ?_, ?_, ?_⟩
  · simp [KPSWaves.initParams]
  · simp [ParamDecl.wellBounded]
    norm_num
  · simp [MiniSubWaves.initParams, ParamDecl.wellBounded]
    norm_num
  · simp [FM.initParams, ParamDecl.wellBounded]
    norm_num
  · simp [KPSWaves.initParams, ParamDecl.wellBounded]
    norm_num

theorem note_copy_eq (n : Note) : Note.copy n = n := rfl

theorem addSequenceLoop_eq (startBeat ampMult : ℚ) (src : List Note) :
    ∀ t : Sequence,
      Sequence.addSequenceLoop startBeat ampMult t src =
        { t with notes := t.notes ++ src.map (fun n => Note.offset n startBeat ampMult) } := by
  induction src with
  | nil => intro t; simp [Sequence.addSequenceLoop]
  | cons note rest ih =>
    intro t
    simp [Sequence.addSequenceLoop, ih, Sequence.add, note_copy_eq]

theorem playNote_attack_decay_irrelevant
    (freq time duration amp attack1 decay1 attack2 decay2 : ℚ) (instrument : Instrument) :
    playNote freq time duration amp attack1 decay1 instrument =
      playNote freq time duration amp attack2 decay2 instrument := by
  cases instrument <;> rfl

theorem playSequence_eq_map (s : Sequence) (bpm : ℚ) (instrument : Instrument) :
    playSequence s bpm instrument =
      s.notes.map (fun n =>
        playNote n.freq (n.time * (60 / bpm)) (n.duration * (60 / bpm)) n.amp n.attack
          n.decay instrument) := by
  have h : ∀ (spb : ℚ) (notes : List Note) (played : List PlayedNote),
      playSequenceLoop spb instrument played notes =
        played ++ notes.map (fun n =>
          playNote n.freq (n.time * spb) (n.duration * spb) n.amp n.attack n.decay
            instrument) := by
    intro spb notes
    induction notes with
    | nil => intro played; simp [playSequenceLoop]
    | cons note rest ih =>
      intro played
      simp [playSequenceLoop, ih, Note.getFreq, Note.getTime, Note.getDuration, Note.getAmp,
        Note.getAttack, Note.getDecay]
  simp only [playSequence, Sequence.getNotes, h, List.nil_append]
  norm_num

/-! ## Helper lemmas: `note_freq` and the conversion to `float` -/

theorem std_pow_eq_zpow (x : ℚ) (k : ℤ) : std_pow x k = x ^ k := by
  unfold std_pow
  split
  · next h =>
    conv_rhs => rw [← Int.toNat_of_nonneg h]
    rw [zpow_natCast]
  · next h =>
    have h' : 0 ≤ -k := by omega
    conv_rhs => rw [← neg_neg k, zpow_neg, ← Int.toNat_of_nonneg h']
    rw [zpow_natCast]

theorem semitone_ratio_gt_one : (1 : ℚ) < SEMITONE_RATIO := by
  unfold SEMITONE_RATIO
  norm_num

theorem note_freq_exact_of_lt (n : ℕ) (h : n < 65536) :
    note_freq_exact n = 440 * SEMITONE_RATIO ^ ((n : ℤ) - 0x45) := by
  unfold note_freq_exact
  rw [Nat.mod_eq_of_lt h, std_pow_eq_zpow]

theorem note_freq_exact_mono (n m : ℕ) (hnm : n ≤ m) (hm : m < 65536) :
    note_freq_exact n ≤ note_freq_exact m := by
  rw [note_freq_exact_of_lt n (by omega), note_freq_exact_of_lt m hm]
  have : SEMITONE_RATIO ^ ((n : ℤ) - 0x45) ≤ SEMITONE_RATIO ^ ((m : ℤ) - 0x45) :=
    zpow_le_zpow_right₀ (le_of_lt semitone_ratio_gt_one) (by omega)
  linarith

theorem note_freq_exact_succ (n : ℕ) (h : n < 65535) :
    note_freq_exact (n + 1) = note_freq_exact n * SEMITONE_RATIO := by
  have hpos : (0 : ℚ) < SEMITONE_RATIO := lt_trans one_pos semitone_ratio_gt_one
  rw [note_freq_exact_of_lt (n + 1) (by omega), note_freq_exact_of_lt n (by omega), mul_assoc,
    ← zpow_add_one₀ (ne_of_gt hpos)]
  congr 2
  push_cast
  ring

theorem note_freq_exact_bounds :
    1 ≤ note_freq_exact 0 ∧
    note_freq_exact 1499 * (1 + 2 ^ (-24 : ℤ)) < 2 ^ 128 ∧
    (2 : ℚ) ^ 128 ≤ note_freq_exact 1500 := by
  refine ⟨?_, ?_, ?_⟩
  · rw [note_freq_exact_of_lt 0 (by norm_num)]
    unfold SEMITONE_RATIO
    norm_num
  · rw [note_freq_exact_of_lt 1499 (by norm_num)]
    unfold SEMITONE_RATIO
    norm_num
  · rw [note_freq_exact_of_lt 1500 (by norm_num)]
    unfold SEMITONE_RATIO
    norm_num



theorem roundHalfEven_abs_sub_le (y : ℚ) : |(roundHalfEven y : ℚ) - y| ≤ 1 / 2 := by
  have h0 : 0 ≤ Int.fract y := Int.fract_nonneg y
  have h1 : Int.fract y < 1 := Int.fract_lt_one y
  have hy : y = (⌊y⌋ : ℚ) + Int.fract y := (Int.floor_add_fract y).symm
  unfold roundHalfEven
  rw [abs_le]
  split
  · next h => constructor <;> linarith
  · next h =>
    push_neg at h
    split
    · next h2 => push_cast; constructor <;> linarith
    · next h2 =>
      push_neg at h2
      have : Int.fract y = 1 / 2 := le_antisymm h2 h
      split
      · constructor <;> linarith
      · push_cast; constructor <;> linarith

theorem roundHalfEven_intCast (k : ℤ) : roundHalfEven (k : ℚ) = k := by
  unfold roundHalfEven
  simp

theorem log_two_nonneg_of_one_le (x : ℚ) (hx : 1 ≤ x) : 0 ≤ Int.log 2 x := by
  rw [Int.log_of_one_le_right 2 hx]
  exact Int.natCast_nonneg _

theorem roundToFloat_error (x : ℚ) (hx : 1 ≤ x) :
    x * (1 - 2 ^ (-24 : ℤ)) ≤ roundToFloat x ∧ roundToFloat x ≤ x * (1 + 2 ^ (-24 : ℤ)) := by
  have hpos : 0 < x := lt_of_lt_of_le one_pos hx
  have he : 0 ≤ Int.log 2 x := log_two_nonneg_of_one_le x hx
  have hmax : max (Int.log 2 x) (-126) = Int.log 2 x := max_eq_left (by omega)
  have hle : (2 : ℚ) ^ Int.log 2 x ≤ x := by
    have := Int.zpow_log_le_self (b := 2) (by norm_num) hpos
    exact_mod_cast this
  have hulp : (0 : ℚ) < 2 ^ (Int.log 2 x - 23) := zpow_pos (by norm_num) _
  have hsplit : (2 : ℚ) ^ (Int.log 2 x - 23) = 2 ^ Int.log 2 x * 2 ^ (-23 : ℤ) := by
    rw [← zpow_add₀ (by norm_num : (2 : ℚ) ≠ 0)]
    congr 1
  have habs := roundHalfEven_abs_sub_le (x / 2 ^ (Int.log 2 x - 23))
  rw [abs_le] at habs
  have hx_eq : x = x / 2 ^ (Int.log 2 x - 23) * 2 ^ (Int.log 2 x - 23) := by
    field_simp
  unfold roundToFloat
  simp only [hmax]
  set u : ℚ := 2 ^ (Int.log 2 x - 23) with hu
  set y : ℚ := x / u with hy
  have hu_le : u ≤ x * 2 ^ (-23 : ℤ) := by
    rw [hsplit]
    exact mul_le_mul_of_nonneg_right hle (by positivity)
  have h23 : (2 : ℚ) ^ (-23 : ℤ) = 2 * 2 ^ (-24 : ℤ) := by norm_num
  have hxy : x = y * u := hx_eq
  constructor
  · nlinarith [habs.1, habs.2, mul_nonneg (show (0:ℚ) ≤ (roundHalfEven y : ℚ) - y + 1/2 by linarith) hulp.le]
  · nlinarith [habs.1, habs.2, mul_nonneg (show (0:ℚ) ≤ y + 1/2 - (roundHalfEven y : ℚ) by linarith) hulp.le]

theorem roundHalfEven_eq_of_near (y : ℚ) (k : ℤ) (h : |y - k| < 1 / 2) :
    roundHalfEven y = k := by
  rw [abs_lt] at h
  unfold roundHalfEven
  by_cases hk : (k : ℚ) ≤ y
  · have hfl : ⌊y⌋ = k := by
      rw [Int.floor_eq_iff]
      constructor
      · exact hk
      · linarith
    have hfr : Int.fract y < 1 / 2 := by
      rw [Int.fract, hfl]
      linarith
    rw [if_pos hfr, hfl]
  · push_neg at hk
    have hfl : ⌊y⌋ = k - 1 := by
      rw [Int.floor_eq_iff]
      push_cast
      constructor <;> linarith
    have hfr : 1 / 2 < Int.fract y := by
      rw [Int.fract, hfl]
      push_cast
      linarith
    rw [if_neg (not_lt.2 hfr.le), if_pos hfr, hfl]
    ring

theorem roundToFloat_eval (x : ℚ) (e k : ℤ) (h1 : 2 ^ e ≤ x) (h2 : x < 2 ^ (e + 1))
    (he : -126 ≤ e) (hk : |x / 2 ^ (e - 23) - k| < 1 / 2) :
    roundToFloat x = k * 2 ^ (e - 23) := by
  have hpos : 0 < x := lt_of_lt_of_le (by positivity) h1
  have hlog : Int.log 2 x = e := by
    have ha : e ≤ Int.log 2 x :=
      (Int.zpow_le_iff_le_log (b := 2) (by norm_num) hpos).1 (by exact_mod_cast h1)
    have hb : Int.log 2 x < e + 1 :=
      (Int.lt_zpow_iff_log_lt (b := 2) (by norm_num) hpos).1 (by exact_mod_cast h2)
    omega
  unfold roundToFloat
  simp only [hlog, max_eq_left he]
  rw [roundHalfEven_eq_of_near _ k hk]

theorem toFloat_eval (x : ℚ) (e k : ℤ) (h1 : 2 ^ e ≤ x) (h2 : x < 2 ^ (e + 1))
    (he : -126 ≤ e) (he2 : e < 127) (hk : |x / 2 ^ (e - 23) - k| < 1 / 2)
    (hk2 : (k : ℚ) < 2 ^ 24) :
    toFloat x = (((k : ℚ) * 2 ^ (e - 23) : ℚ) : WithTop ℚ) := by
  have hpos : 0 < x := lt_of_lt_of_le (by positivity) h1
  have hr := roundToFloat_eval x e k h1 h2 he hk
  have hx : x < 2 ^ 128 := by
    have : (2 : ℚ) ^ (e + 1) ≤ 2 ^ (128 : ℤ) := zpow_le_zpow_right₀ (by norm_num) (by omega)
    have h128 : (2 : ℚ) ^ (128 : ℤ) = 2 ^ 128 := by norm_num
    linarith
  have hrlt : roundToFloat x < 2 ^ 128 := by
    rw [hr]
    have hu : (0 : ℚ) < 2 ^ (e - 23) := by positivity
    have : (k : ℚ) * 2 ^ (e - 23) < 2 ^ 24 * 2 ^ (e - 23) := mul_lt_mul_of_pos_right hk2 hu
    have h2' : (2 : ℚ) ^ 24 * 2 ^ (e - 23) = 2 ^ (e + 1) := by
      rw [show (2 : ℚ) ^ 24 = 2 ^ (24 : ℤ) by norm_num, ← zpow_add₀ (by norm_num : (2 : ℚ) ≠ 0)]
      congr 1
      ring
    have : (2 : ℚ) ^ (e + 1) ≤ 2 ^ (128 : ℤ) := zpow_le_zpow_right₀ (by norm_num) (by omega)
    have h128 : (2 : ℚ) ^ (128 : ℤ) = 2 ^ 128 := by norm_num
    linarith
  unfold toFloat
  rw [if_neg (not_le.2 hpos), if_neg (not_le.2 hx), if_neg (not_le.2 hrlt), hr]

theorem note_freq_4_5 :
    note_freq 4 = (((10801203 : ℚ) / 1048576 : ℚ) : WithTop ℚ) ∧
    note_freq 5 = (((11443477 : ℚ) / 1048576 : ℚ) : WithTop ℚ) ∧
    toFloat ((10801203 : ℚ) / 1048576 * SEMITONE_RATIO) =
      (((11443476 : ℚ) / 1048576 : ℚ) : WithTop ℚ) ∧
    toFloat 1.0594630943592952646 = (( SEMITONE_RATIO : ℚ) : WithTop ℚ) := by
  refine ⟨?_, ?_, ?_, ?_⟩
  · have h := toFloat_eval (note_freq_exact 4) 3 10801203
      (by simp only [note_freq_exact, std_pow, SEMITONE_RATIO]; norm_num [Int.toNat])
      (by simp only [note_freq_exact, std_pow, SEMITONE_RATIO]; norm_num [Int.toNat])
      (by norm_num) (by norm_num)
      (by simp only [note_freq_exact, std_pow, SEMITONE_RATIO]; norm_num [Int.toNat, abs_lt])
      (by norm_num)
    unfold note_freq
    rw [h]
    norm_num
  · have h := toFloat_eval (note_freq_exact 5) 3 11443477
      (by simp only [note_freq_exact, std_pow, SEMITONE_RATIO]; norm_num [Int.toNat])
      (by simp only [note_freq_exact, std_pow, SEMITONE_RATIO]; norm_num [Int.toNat])
      (by norm_num) (by norm_num)
      (by simp only [note_freq_exact, std_pow, SEMITONE_RATIO]; norm_num [Int.toNat, abs_lt])
      (by norm_num)
    unfold note_freq
    rw [h]
    norm_num
  · have h := toFloat_eval ((10801203 : ℚ) / 1048576 * SEMITONE_RATIO) 3 11443476
      (by simp only [ SEMITONE_RATIO]; norm_num)
      (by simp only [ SEMITONE_RATIO]; norm_num)
      (by norm_num) (by norm_num)
      (by simp only [ SEMITONE_RATIO]; norm_num [abs_lt])
      (by norm_num)
    rw [h]
    norm_num
  · have h := toFloat_eval 1.0594630943592952646 0 8887421
      (by norm_num) (by norm_num) (by norm_num) (by norm_num)
      (by norm_num [abs_lt]) (by norm_num)
    rw [h]
    simp only [ SEMITONE_RATIO]
    norm_num

theorem toFloat_of_small (x : ℚ) (hx : 1 ≤ x) (h : x * (1 + 2 ^ (-24 : ℤ)) < 2 ^ 128) :
    toFloat x = ((roundToFloat x : ℚ) : WithTop ℚ) := by
  have hpos : 0 < x := lt_of_lt_of_le one_pos hx
  have hr := (roundToFloat_error x hx).2
  have hxlt : x < 2 ^ 128 := by
    have : x ≤ x * (1 + 2 ^ (-24 : ℤ)) := by
      have : (0 : ℚ) ≤ 2 ^ (-24 : ℤ) := by positivity
      nlinarith
    linarith
  unfold toFloat
  rw [if_neg (not_le.2 hpos), if_neg (not_le.2 hxlt), if_neg (not_le.2 (lt_of_le_of_lt hr h))]

theorem toFloat_of_large (x : ℚ) (h : 2 ^ 128 ≤ x) : toFloat x = ⊤ := by
  have hpos : (0 : ℚ) < x := lt_of_lt_of_le (by positivity) h
  unfold toFloat
  rw [if_neg (not_le.2 hpos), if_pos h]

theorem note_freq_of_le_1499 (n : ℕ) (h : n ≤ 1499) :
    note_freq n = ((roundToFloat (note_freq_exact n) : ℚ) : WithTop ℚ) ∧
    1 ≤ note_freq_exact n ∧
    note_freq_exact n * (1 - 2 ^ (-24 : ℤ)) ≤ roundToFloat (note_freq_exact n) ∧
    roundToFloat (note_freq_exact n) ≤ note_freq_exact n * (1 + 2 ^ (-24 : ℤ)) := by
  have hb := note_freq_exact_bounds
  have h1 : 1 ≤ note_freq_exact n :=
    le_trans hb.1 (note_freq_exact_mono 0 n (Nat.zero_le n) (by omega))
  have h2 : note_freq_exact n ≤ note_freq_exact 1499 :=
    note_freq_exact_mono n 1499 h (by norm_num)
  have h3 : note_freq_exact n * (1 + 2 ^ (-24 : ℤ)) < 2 ^ 128 :=
    lt_of_le_of_lt (mul_le_mul_of_nonneg_right h2 (by positivity)) hb.2.1
  have he := roundToFloat_error (note_freq_exact n) h1
  exact ⟨toFloat_of_small _ h1 h3, h1, he.1, he.2⟩

theorem note_freq_of_ge_1500 (n : ℕ) (h : 1500 ≤ n) (hn : n < 65536) : note_freq n = ⊤ :=
  toFloat_of_large _
    (le_trans note_freq_exact_bounds.2.2 (note_freq_exact_mono 1500 n h hn))

theorem note_freq_mod (n : ℕ) : note_freq n = note_freq (n % 65536) := by
  unfold note_freq note_freq_exact
  rw [Nat.mod_mod]

theorem note_freq_lt_of_lt (n m : ℕ) (hnm : n < m) (hm : m ≤ 1499) :
    note_freq n < note_freq m := by
  have hn := note_freq_of_le_1499 n (by omega)
  have hm' := note_freq_of_le_1499 m hm
  rw [hn.1, hm'.1, WithTop.coe_lt_coe]
  have hstep : note_freq_exact n * SEMITONE_RATIO ≤ note_freq_exact m := by
    rw [← note_freq_exact_succ n (by omega)]
    exact note_freq_exact_mono (n + 1) m hnm (by omega)
  have hr : (1 + 2 ^ (-24 : ℤ)) < SEMITONE_RATIO * (1 - 2 ^ (-24 : ℤ)) := by
    unfold SEMITONE_RATIO
    norm_num
  have hpos : 0 < note_freq_exact n := lt_of_lt_of_le one_pos hn.2.1
  calc roundToFloat (note_freq_exact n)
      ≤ note_freq_exact n * (1 + 2 ^ (-24 : ℤ)) := hn.2.2.2
    _ < note_freq_exact n * ( SEMITONE_RATIO * (1 - 2 ^ (-24 : ℤ))) :=
        mul_lt_mul_of_pos_left hr hpos
    _ = note_freq_exact n * SEMITONE_RATIO * (1 - 2 ^ (-24 : ℤ)) := by ring
    _ ≤ note_freq_exact m * (1 - 2 ^ (-24 : ℤ)) :=
        mul_le_mul_of_nonneg_right hstep (by norm_num)
    _ ≤ roundToFloat (note_freq_exact m) := hm'.2.2.1

theorem note_freq_pos (k : ℕ) : 0 < note_freq k := by
  rw [note_freq_mod]
  have hk : k % 65536 < 65536 := Nat.mod_lt _ (by norm_num)
  by_cases h : k % 65536 ≤ 1499
  · have hn := note_freq_of_le_1499 _ h
    rw [hn.1]
    have : (0 : ℚ) < roundToFloat (note_freq_exact (k % 65536)) := by
      have h1 : (0 : ℚ) < note_freq_exact (k % 65536) * (1 - 2 ^ (-24 : ℤ)) :=
        mul_pos (lt_of_lt_of_le one_pos hn.2.1) (by norm_num)
      linarith [hn.2.2.1]
    exact_mod_cast this
  · rw [note_freq_of_ge_1500 _ (by omega) hk]
    exact WithTop.coe_lt_top 0

theorem roundToFloat_440 : roundToFloat 440 = 440 := by
  have hlog : Int.log 2 (440 : ℚ) = 8 := by
    have h : Int.log 2 (((440 : ℕ) : ℚ)) = Nat.log 2 440 := Int.log_natCast 2 440
    have h2 : Nat.log 2 440 = 8 := by
      rw [Nat.log_eq_iff (by norm_num)]
      norm_num
    rw [h2] at h
    exact_mod_cast h
  unfold roundToFloat
  simp only [hlog]
  have : (440 : ℚ) / 2 ^ (max (8 : ℤ) (-126) - 23) = ((14417920 : ℤ) : ℚ) := by
    norm_num
  rw [this, roundHalfEven_intCast]
  norm_num

/-! ## Helper lemmas: what the sample loops leave alone -/

theorem miniSubWaves_render_envFollow (G : Gamma) (amp filtFreq filtEnvDepth oscMix noiseMix : ℚ)
    (b : AudioBlock) : ∀ v : MiniSubWaves G,
    (MiniSubWaves.render G amp filtFreq filtEnvDepth oscMix noiseMix v b).1.mEnvFollow =
      v.mEnvFollow := by
  induction b with
  | nil => intro v; rfl
  | cons out rest ih =>
    intro v
    simp only [MiniSubWaves.render, ih]
    rfl

theorem kpsWaves_render_envFollow (G : Gamma)
    (amp filtFreq filtEnvDepth oscMix noiseMix noteFreq : ℚ)
    (b : AudioBlock) : ∀ v : KPSWaves G,
    (KPSWaves.render G amp filtFreq filtEnvDepth oscMix noiseMix noteFreq v b).1.mEnvFollow =
      v.mEnvFollow := by
  induction b with
  | nil => intro v; rfl
  | cons out rest ih =>
    intro v
    simp only [KPSWaves.render, ih]
    rfl

theorem miniSubWaves_render_curve (G : Gamma) (V : EnvelopeView G)
    (amp filtFreq filtEnvDepth oscMix noiseMix : ℚ) (b : AudioBlock) : ∀ v : MiniSubWaves G,
    V.curve (MiniSubWaves.render G amp filtFreq filtEnvDepth oscMix noiseMix v b).1.mAmpEnv =
      V.curve v.mAmpEnv ∧
    V.curve (MiniSubWaves.render G amp filtFreq filtEnvDepth oscMix noiseMix v b).1.mFiltEnv =
      V.curve v.mFiltEnv := by
  induction b with
  | nil => intro v; exact ⟨rfl, rfl⟩
  | cons out rest ih =>
    intro v
    simp only [MiniSubWaves.render, ih]
    simp only [MiniSubWaves.sample, V.curve_adsrTick, and_self]

theorem kpsWaves_render_curve (G : Gamma) (V : EnvelopeView G)
    (amp filtFreq filtEnvDepth oscMix noiseMix noteFreq : ℚ) (b : AudioBlock) :
    ∀ v : KPSWaves G,
    V.curve (KPSWaves.render G amp filtFreq filtEnvDepth oscMix noiseMix noteFreq v b).1.mAmpEnv =
      V.curve v.mAmpEnv ∧
    V.curve (KPSWaves.render G amp filtFreq filtEnvDepth oscMix noiseMix noteFreq v b).1.mFiltEnv =
      V.curve v.mFiltEnv := by
  induction b with
  | nil => intro v; exact ⟨rfl, rfl⟩
  | cons out rest ih =>
    intro v
    simp only [KPSWaves.render, ih]
    simp only [KPSWaves.sample, V.curve_adsrTick, and_self]

theorem defaults_envCve :
    defaultsOf MiniSubWaves.initParams "ampEnvCve" = 4 ∧
    defaultsOf MiniSubWaves.initParams "filtEnvCve" = 4 ∧
    defaultsOf KPSWaves.initParams "ampEnvCve" = 4 ∧
    defaultsOf KPSWaves.initParams "filtEnvCve" = 4 := by
  refine ⟨?_, ?_, ?_, ?_⟩ <;>
    simp [defaultsOf, MiniSubWaves.initParams, KPSWaves.initParams, List.find?] <;> norm_num

/-! ## The claims on triggering, notes and sequences -/

/-- C11, the claim as stated fails for `FM`: `FM::onTriggerOn` leaves both oscillators as
they were, whatever the parameter values, so no parameter reaches an oscillator frequency
there; on a fresh voice at the declared defaults the modulator keeps frequency 0, while
`FM::onProcess` sets it to 440 * 1.0007. -/
theorem FM.onTriggerOn_leaves_oscillators :
    (∀ (G : Gamma) (get : String → ℚ) (v : FM G),
      (FM.onTriggerOn G get v).car = v.car ∧ (FM.onTriggerOn G get v).mod = v.mod) ∧
    PlainOsc.freq (FM.onTriggerOn plainGamma (defaultsOf FM.initParams) FM.blank).mod = 0 ∧
    PlainOsc.freq (FM.onTriggerOn plainGamma (defaultsOf FM.initParams) FM.blank).car = 0 ∧
    defaultsOf FM.initParams "freq" = 440 ∧
    PlainOsc.freq (FM.onProcess plainGamma (defaultsOf FM.initParams) FM.blank []).voice.mod =
      440 * 1.0007 := by
  refine ⟨fun _ _ _ => ⟨rfl, rfl⟩, rfl, rfl, ?_, ?_⟩
  · simp [defaultsOf, FM.initParams, List.find?]
  · simp [FM.onProcess, FM.render, FM.modFreq, plainGamma, defaultsOf, FM.initParams,
      List.find?]

/-- C11 as amended: `onTriggerOn` of `MiniSubWaves` and of `KPSWaves` sets the oscillator
frequencies, the filter and the pan from the current parameter values (and, in
`KPSWaves`, the comb), configures the two envelopes and then resets them; `onTriggerOn` of
`FM` sets the four levels of the modulation envelope, the first three lengths of both
envelopes and the pan, then resets both envelopes, and leaves both oscillators and the
follower as they were; `onTriggerOff` of each voice triggers the release of its two
envelopes and leaves every other member as it was. -/
theorem onTrigger_effects (G : Gamma) (get : String → ℚ)
    (a : MiniSubWaves G) (k : KPSWaves G) (f : FM G) :
    MiniSubWaves.onTriggerOn G get a =
      { mNoiseMix := a.mNoiseMix
        mPan := G.panPos (get "pan") a.mPan
        mAmpEnv :=
          G.adsrReset
            (G.adsrCurve (get "ampEnvCve")
              (G.adsrRelease (get "ampEnvRel")
                (G.adsrSustain (get "ampEnvSus")
                  (G.adsrDecay (get "ampEnvDec")
                    (G.adsrAttack (get "ampEnvAtk") a.mAmpEnv)))))
        mFiltEnv :=
          G.adsrReset
            (G.adsrCurve (get "filtEnvCve")
              (G.adsrRelease (get "filtEnvRel")
                (G.adsrSustain (get "filtEnvSus")
                  (G.adsrDecay (get "filtEnvDec")
                    (G.adsrAttack (get "filtEnvAtk") a.mFiltEnv)))))
        mEnvFollow := a.mEnvFollow
        mOsc0 := G.sawFreq (get "frequency") a.mOsc0
        mOsc1 := G.dwoFreq (get "frequency") a.mOsc1
        mNoise := a.mNoise
        mFilter := G.biquadRes (get "filtRes") (G.biquadFreq (get "filtFreq") a.mFilter) } ∧
    KPSWaves.onTriggerOn G get k =
      { mNoiseMix := k.mNoiseMix
        mPan := G.panPos (get "pan") k.mPan
        mAmpEnv :=
          G.adsrReset
            (G.adsrCurve (get "ampEnvCve")
              (G.adsrRelease (get "ampEnvRel")
                (G.adsrSustain (get "ampEnvSus")
                  (G.adsrDecay (get "ampEnvDec")
                    (G.adsrAttack (get "ampEnvAtk") k.mAmpEnv)))))
        mFiltEnv :=
          G.adsrReset
            (G.adsrCurve (get "filtEnvCve")
              (G.adsrRelease (get "filtEnvRel")
                (G.adsrSustain (get "filtEnvSus")
                  (G.adsrDecay (get "filtEnvDec")
                    (G.adsrAttack (get "filtEnvAtk") k.mFiltEnv)))))
        mEnvFollow := k.mEnvFollow
        mOsc0 := G.sawFreq (get "frequency") k.mOsc0
        mOsc1 := G.dwoFreq (get "frequency") k.mOsc1
        mNoise := k.mNoise
        mFilter := G.biquadRes (get "filtRes") (G.biquadFreq (get "filtFreq") k.mFilter)
        mComb :=
          G.combDecay (get "combDec")
            (G.combFbk (get "combFbk")
              (G.combFfd (get "combFfw")
                (G.combDelay (get "combDel")
                  (G.combMaxDelay (get "combDel" * 1.1) k.mComb)))) } ∧
    FM.onTriggerOn G get f =
      { mPan := G.panPos (get "pan") f.mPan
        mAmpEnv :=
          G.adsrReset
            (G.adsrSetLength 2 (get "releaseTime")
              (G.adsrSetLength 1 0.001
                (G.adsrSetLength 0 (get "attackTime") f.mAmpEnv)))
        mModEnv :=
          G.adsrReset
            (G.adsrSetLength 2 (get "releaseTime")
              (G.adsrSetLength 1 0.001
                (G.adsrSetLength 0 (get "attackTime")
                  (G.adsrSetLevel 3 (get "idx3")
                    (G.adsrSetLevel 2 (get "idx2")
                      (G.adsrSetLevel 1 (get "idx2")
                        (G.adsrSetLevel 0 (get "idx1") f.mModEnv)))))))
        mEnvFollow := f.mEnvFollow
        car := f.car
        mod := f.mod } ∧
    MiniSubWaves.onTriggerOff G a =
      { mNoiseMix := a.mNoiseMix
        mPan := a.mPan
        mAmpEnv := G.adsrTriggerRelease a.mAmpEnv
        mFiltEnv := G.adsrTriggerRelease a.mFiltEnv
        mEnvFollow := a.mEnvFollow
        mOsc0 := a.mOsc0
        mOsc1 := a.mOsc1
        mNoise := a.mNoise
        mFilter := a.mFilter } ∧
    KPSWaves.onTriggerOff G k =
      { mNoiseMix := k.mNoiseMix
        mPan := k.mPan
        mAmpEnv := G.adsrTriggerRelease k.mAmpEnv
        mFiltEnv := G.adsrTriggerRelease k.mFiltEnv
        mEnvFollow := k.mEnvFollow
        mOsc0 := k.mOsc0
        mOsc1 := k.mOsc1
        mNoise := k.mNoise
        mFilter := k.mFilter
        mComb := k.mComb } ∧
    FM.onTriggerOff G f =
      { mPan := f.mPan
        mAmpEnv := G.adsrTriggerRelease f.mAmpEnv
        mModEnv := G.adsrTriggerRelease f.mModEnv
        mEnvFollow := f.mEnvFollow
        car := f.car
        mod := f.mod } := by
  refine ⟨rfl, rfl, rfl, rfl, rfl, rfl⟩

/-- C12: the offset-copy constructor keeps freq, duration, attack and decay, adds
`beatOffset` to the time and multiplies the amplitude by `ampMult`; with offset 0 and the
default multiplier 1 the result is the note itself. -/
theorem Note.offset_fields (n : Note) (beatOffset ampMult : ℚ) :
    (Note.offset n beatOffset ampMult).freq = n.freq ∧
    (Note.offset n beatOffset ampMult).duration = n.duration ∧
    (Note.offset n beatOffset ampMult).attack = n.attack ∧
    (Note.offset n beatOffset ampMult).decay = n.decay ∧
    (Note.offset n beatOffset ampMult).time = n.time + beatOffset ∧
    (Note.offset n beatOffset ampMult).amp = n.amp * ampMult ∧
    Note.offset n 0 1 = n := by
  refine ⟨rfl, rfl, rfl, rfl, rfl, rfl, ?_⟩
  cases n
  simp [Note.offset]

/-- C13: after `t.addSequence(s, startBeat, ampMult)` with `s` another object than `t`, the
notes of `t` are its former notes followed by the notes of `s` in their order, each with
time increased by `startBeat`, amp multiplied by `ampMult` and the other fields unchanged;
the length is the sum of the two lengths and `s` is unchanged. -/
theorem Sequence.addSequence_notes (t s : Sequence) (startBeat ampMult : ℚ) :
    (t.addSequence s startBeat ampMult).1.notes =
      t.notes ++ s.notes.map (fun n =>
        ({ freq := n.freq, time := n.time + startBeat, duration := n.duration,
           amp := n.amp * ampMult, attack := n.attack, decay := n.decay } : Note)) ∧
    (t.addSequence s startBeat ampMult).1.notes.length = t.notes.length + s.notes.length ∧
    (t.addSequence s startBeat ampMult).1.ts = t.ts ∧
    (t.addSequence s startBeat ampMult).2 = s := by
  have h := addSequenceLoop_eq startBeat ampMult s.notes t
  refine ⟨?_, ?_, ?_, rfl⟩
  · simp only [Sequence.addSequence, Sequence.getNotes, h]
    rfl
  · simp only [Sequence.addSequence, Sequence.getNotes, h, List.length_append,
      List.length_map]
  · simp only [Sequence.addSequence, Sequence.getNotes, h]

/-- C14 (the code departs from the claim): `init()` configures curve 0 on both envelopes of
`MiniSubWaves` and of `KPSWaves`, but `updateFromParameters`, run by `onTriggerOn` and by
every audio `onProcess`, configures the curve read from "ampEnvCve" and "filtEnvCve",
whose declared default is 4.0: after `init()` and `onTriggerOn()` (or one audio block) at
the defaults the curve of both envelopes is 4, not 0. -/
theorem subtractive_curve_after_trigger :
    (∀ (G : Gamma) (V : EnvelopeView G) (get : String → ℚ) (b : AudioBlock)
        (a : MiniSubWaves G) (k : KPSWaves G),
      (V.curve (MiniSubWaves.onTriggerOn G get a).mAmpEnv = get "ampEnvCve" ∧
        V.curve (MiniSubWaves.onTriggerOn G get a).mFiltEnv = get "filtEnvCve" ∧
        V.curve (KPSWaves.onTriggerOn G get k).mAmpEnv = get "ampEnvCve" ∧
        V.curve (KPSWaves.onTriggerOn G get k).mFiltEnv = get "filtEnvCve") ∧
      (V.curve (MiniSubWaves.onProcess G get a b).voice.mAmpEnv = get "ampEnvCve" ∧
        V.curve (MiniSubWaves.onProcess G get a b).voice.mFiltEnv = get "filtEnvCve" ∧
        V.curve (KPSWaves.onProcess G get k b).voice.mAmpEnv = get "ampEnvCve" ∧
        V.curve (KPSWaves.onProcess G get k b).voice.mFiltEnv = get "filtEnvCve")) ∧
    (plainView.curve (MiniSubWaves.init plainGamma MiniSubWaves.blank).mAmpEnv = 0 ∧
      plainView.curve
        (MiniSubWaves.onTriggerOn plainGamma (defaultsOf MiniSubWaves.initParams)
          (MiniSubWaves.init plainGamma MiniSubWaves.blank)).mAmpEnv = 4 ∧
      plainView.curve
        (MiniSubWaves.onTriggerOn plainGamma (defaultsOf MiniSubWaves.initParams)
          (MiniSubWaves.init plainGamma MiniSubWaves.blank)).mFiltEnv = 4 ∧
      plainView.curve
        (KPSWaves.onTriggerOn plainGamma (defaultsOf KPSWaves.initParams)
          (KPSWaves.init plainGamma KPSWaves.blank)).mAmpEnv = 4 ∧
      plainView.curve
        (KPSWaves.onTriggerOn plainGamma (defaultsOf KPSWaves.initParams)
          (KPSWaves.init plainGamma KPSWaves.blank)).mFiltEnv = 4 ∧
      plainView.curve
        (MiniSubWaves.onProcess plainGamma (defaultsOf MiniSubWaves.initParams)
          (MiniSubWaves.init plainGamma MiniSubWaves.blank) [(0, 0)]).voice.mAmpEnv = 4) := by
  have hgen : ∀ (G : Gamma) (V : EnvelopeView G) (get : String → ℚ) (b : AudioBlock)
      (a : MiniSubWaves G) (k : KPSWaves G),
      (V.curve (MiniSubWaves.onTriggerOn G get a).mAmpEnv = get "ampEnvCve" ∧
        V.curve (MiniSubWaves.onTriggerOn G get a).mFiltEnv = get "filtEnvCve" ∧
        V.curve (KPSWaves.onTriggerOn G get k).mAmpEnv = get "ampEnvCve" ∧
        V.curve (KPSWaves.onTriggerOn G get k).mFiltEnv = get "filtEnvCve") ∧
      (V.curve (MiniSubWaves.onProcess G get a b).voice.mAmpEnv = get "ampEnvCve" ∧
        V.curve (MiniSubWaves.onProcess G get a b).voice.mFiltEnv = get "filtEnvCve" ∧
        V.curve (KPSWaves.onProcess G get k b).voice.mAmpEnv = get "ampEnvCve" ∧
        V.curve (KPSWaves.onProcess G get k b).voice.mFiltEnv = get "filtEnvCve") := by
    intro G V get b a k
    refine ⟨⟨?_, ?_, ?_, ?_⟩, ⟨?_, ?_, ?_, ?_⟩⟩
    · simp only [MiniSubWaves.onTriggerOn, MiniSubWaves.updateFromParameters,
        V.curve_adsrReset, V.curve_adsrCurve]
    · simp only [MiniSubWaves.onTriggerOn, MiniSubWaves.updateFromParameters,
        V.curve_adsrReset, V.curve_adsrCurve]
    · simp only [KPSWaves.onTriggerOn, KPSWaves.updateFromParameters,
        V.curve_adsrReset, V.curve_adsrCurve]
    · simp only [KPSWaves.onTriggerOn, KPSWaves.updateFromParameters,
        V.curve_adsrReset, V.curve_adsrCurve]
    · simp only [MiniSubWaves.onProcess, miniSubWaves_render_curve G V,
        MiniSubWaves.updateFromParameters, V.curve_adsrCurve]
    · simp only [MiniSubWaves.onProcess, miniSubWaves_render_curve G V,
        MiniSubWaves.updateFromParameters, V.curve_adsrCurve]
    · simp only [KPSWaves.onProcess, kpsWaves_render_curve G V,
        KPSWaves.updateFromParameters, V.curve_adsrCurve]
    · simp only [KPSWaves.onProcess, kpsWaves_render_curve G V,
        KPSWaves.updateFromParameters, V.curve_adsrCurve]
  have hd := defaults_envCve
  refine ⟨?_, ?_⟩
  · exact hgen
  · have h1 := hgen plainGamma plainView (defaultsOf MiniSubWaves.initParams) [(0, 0)]
      (MiniSubWaves.init plainGamma MiniSubWaves.blank) KPSWaves.blank
    have h2 := hgen plainGamma plainView (defaultsOf KPSWaves.initParams) [(0, 0)]
      MiniSubWaves.blank (KPSWaves.init plainGamma KPSWaves.blank)
    refine ⟨rfl, ?_, ?_, ?_, ?_, ?_⟩
    · rw [h1.1.1, hd.1]
    · rw [h1.1.2.1, hd.2.1]
    · rw [h2.1.2.2.1, hd.2.2.1]
    · rw [h2.1.2.2.2, hd.2.2.2]
    · rw [h1.2.1, hd.1]

/-- C15: the audio `onProcess` of `MiniSubWaves` and of `KPSWaves` leaves `mEnvFollow` as it
was before the call, so the completion check compares the value the follower had before
the block with 0.001, and the graphics `onProcess` draws the same after the block as
before it. -/
theorem onProcess_keeps_envFollow (G : Gamma) (get : String → ℚ) (b : AudioBlock)
    (a : MiniSubWaves G) (k : KPSWaves G) :
    ((MiniSubWaves.onProcess G get a b).voice.mEnvFollow = a.mEnvFollow ∧
      (MiniSubWaves.onProcess G get a b).freed =
        (G.adsrDone (MiniSubWaves.onProcess G get a b).voice.mAmpEnv &&
          decide (G.envFollowValue a.mEnvFollow < 0.001)) ∧
      MiniSubWaves.onProcessGraphics G get (MiniSubWaves.onProcess G get a b).voice =
        MiniSubWaves.onProcessGraphics G get a) ∧
    ((KPSWaves.onProcess G get k b).voice.mEnvFollow = k.mEnvFollow ∧
      (KPSWaves.onProcess G get k b).freed =
        (G.adsrDone (KPSWaves.onProcess G get k b).voice.mAmpEnv &&
          decide (G.envFollowValue k.mEnvFollow < 0.001)) ∧
      KPSWaves.onProcessGraphics G get (KPSWaves.onProcess G get k b).voice =
        KPSWaves.onProcessGraphics G get k) := by
  have ha : (MiniSubWaves.onProcess G get a b).voice.mEnvFollow = a.mEnvFollow := by
    simp only [MiniSubWaves.onProcess, miniSubWaves_render_envFollow]
    rfl
  have hk : (KPSWaves.onProcess G get k b).voice.mEnvFollow = k.mEnvFollow := by
    simp only [KPSWaves.onProcess, kpsWaves_render_envFollow]
    rfl
  refine ⟨⟨ha, ?_, ?_⟩, ⟨hk, ?_, ?_⟩⟩
  · rw [← ha]; rfl
  · simp only [MiniSubWaves.onProcessGraphics, ha]
  · rw [← hk]; rfl
  · simp only [KPSWaves.onProcessGraphics, hk]

/-- C16: after `FM::onTriggerOn()` the four levels of the modulation envelope are
(idx1, idx2, idx2, idx3) and the first three lengths of the amplitude and of the
modulation envelope are (attackTime, 0.001, releaseTime); on a voice that went through
`init()` the levels of the amplitude envelope are still (0, 1, 1, 0). -/
theorem FM.onTriggerOn_envelopes (G : Gamma) (V : EnvelopeView G) (get : String → ℚ)
    (v : FM G) :
    (V.level (FM.onTriggerOn G get v).mModEnv 0 = get "idx1" ∧
      V.level (FM.onTriggerOn G get v).mModEnv 1 = get "idx2" ∧
      V.level (FM.onTriggerOn G get v).mModEnv 2 = get "idx2" ∧
      V.level (FM.onTriggerOn G get v).mModEnv 3 = get "idx3") ∧
    (V.length (FM.onTriggerOn G get v).mAmpEnv 0 = get "attackTime" ∧
      V.length (FM.onTriggerOn G get v).mAmpEnv 1 = 0.001 ∧
      V.length (FM.onTriggerOn G get v).mAmpEnv 2 = get "releaseTime") ∧
    (V.length (FM.onTriggerOn G get v).mModEnv 0 = get "attackTime" ∧
      V.length (FM.onTriggerOn G get v).mModEnv 1 = 0.001 ∧
      V.length (FM.onTriggerOn G get v).mModEnv 2 = get "releaseTime") ∧
    (V.level (FM.onTriggerOn G get (FM.init G v)).mAmpEnv 0 = 0 ∧
      V.level (FM.onTriggerOn G get (FM.init G v)).mAmpEnv 1 = 1 ∧
      V.level (FM.onTriggerOn G get (FM.init G v)).mAmpEnv 2 = 1 ∧
      V.level (FM.onTriggerOn G get (FM.init G v)).mAmpEnv 3 = 0) := by
  have hl := V.level_adsrLevels 0 1 1 0 v.mAmpEnv
  refine ⟨⟨?_, ?_, ?_, ?_⟩, ⟨?_, ?_, ?_⟩, ⟨?_, ?_, ?_⟩, ⟨?_, ?_, ?_, ?_⟩⟩ <;>
    simp [FM.onTriggerOn, FM.init, V.level_adsrReset, V.level_adsrSetLength,
      V.level_adsrSetLevel, V.length_adsrReset, V.length_adsrSetLength, hl.1, hl.2.1,
      hl.2.2.1, hl.2.2.2]

/-- Witness of C16: a fresh `FM` voice of `plainGamma` after `init()` and `onTriggerOn()` at
the declared defaults. -/
theorem FM.onTriggerOn_envelopes_witness :
    plainView.level
        (FM.onTriggerOn plainGamma (defaultsOf FM.initParams) FM.blank).mModEnv 1 =
      defaultsOf FM.initParams "idx2" ∧
    plainView.length
        (FM.onTriggerOn plainGamma (defaultsOf FM.initParams) FM.blank).mAmpEnv 1 = 0.001 ∧
    plainView.level
        (FM.onTriggerOn plainGamma (defaultsOf FM.initParams)
          (FM.init plainGamma FM.blank)).mAmpEnv 1 = 1 :=
  let h := FM.onTriggerOn_envelopes plainGamma plainView (defaultsOf FM.initParams) FM.blank
  ⟨h.1.2.1, h.2.1.2.1, h.2.2.2.2.1⟩

/-- C17: `playSequence` calls `playNote` once per note of the sequence, in order, with the
freq and amp of the note, the onset `time * (60 / bpm)` and the duration
`duration * (60 / bpm)`; at 60 bpm these are the values in beats. -/
theorem playSequence_calls (s : Sequence) (bpm : ℚ) (instrument : Instrument)
    (hbpm : 0 < bpm) :
    playSequence s bpm instrument =
      s.notes.map (fun n =>
        playNote n.freq (n.time * (60 / bpm)) (n.duration * (60 / bpm)) n.amp n.attack
          n.decay instrument) ∧
    (playSequence s bpm instrument).length = s.notes.length ∧
    (∀ (i : ℕ) (h : i < s.notes.length),
      ((playSequence s bpm instrument).get? i).map (fun p => (p.time, p.duration)) =
        some ((s.notes.get ⟨i, h⟩).time * (60 / bpm),
              (s.notes.get ⟨i, h⟩).duration * (60 / bpm))) ∧
    0 < 60 / bpm ∧
    playSequence s 60 instrument =
      s.notes.map (fun n => playNote n.freq n.time n.duration n.amp n.attack n.decay
        instrument) := by
  refine ⟨playSequence_eq_map s bpm instrument, ?_, ?_, div_pos (by norm_num) hbpm, ?_⟩
  · rw [playSequence_eq_map]; simp
  · intro i hi
    rw [playSequence_eq_map]
    simp [List.getElem?_map, List.getElem?_eq_getElem hi]
    cases instrument <;> simp [playNote]
  · rw [playSequence_eq_map]; norm_num

/-- Witness of C17: a one-note sequence played at 120 bpm on the FM voice. -/
theorem playSequence_calls_witness :
    (0 : ℚ) < 120 ∧
    (playSequence ⟨TimeSignature.new, [⟨440, 1, 0.5, 0.2, 0.05, 0.05⟩]⟩ 120 .INSTR_FM).length
      = 1 :=
  ⟨by norm_num,
    (playSequence_calls ⟨TimeSignature.new, [⟨440, 1, 0.5, 0.2, 0.05, 0.05⟩]⟩ 120 .INSTR_FM
      (by norm_num)).2.1⟩

/-- C18: for oscMix and noise in [0, 1] and the two oscillator samples and the noise sample
in [-1, 1], the pre-filter sample of `MiniSubWaves::onProcess` and `KPSWaves::onProcess`
has absolute value at most 1. -/
theorem preFilterSample_abs_le_one (osc0 osc1 nz oscMix noiseMix : ℚ)
    (hk0 : 0 ≤ oscMix) (hk1 : oscMix ≤ 1) (hn0 : 0 ≤ noiseMix) (hn1 : noiseMix ≤ 1)
    (h0 : |osc0| ≤ 1) (h1 : |osc1| ≤ 1) (hz : |nz| ≤ 1) :
    |preFilterSample osc0 osc1 nz oscMix noiseMix| ≤ 1 := by
  rw [abs_le] at h0 h1 hz ⊢
  simp only [preFilterSample]
  have hk : 0 ≤ 1 - oscMix := by linarith
  have hn : 0 ≤ 1 - noiseMix := by linarith
  have hm1 : osc0 * (1 - oscMix) + osc1 * oscMix ≤ 1 := by
    nlinarith [mul_nonneg hk (sub_nonneg.2 h0.2), mul_nonneg hk0 (sub_nonneg.2 h1.2)]
  have hm0 : -1 ≤ osc0 * (1 - oscMix) + osc1 * oscMix := by
    nlinarith [mul_nonneg hk (show 0 ≤ osc0 + 1 by linarith),
      mul_nonneg hk0 (show 0 ≤ osc1 + 1 by linarith)]
  constructor
  · nlinarith [mul_nonneg hn (show 0 ≤ osc0 * (1 - oscMix) + osc1 * oscMix + 1 by linarith),
      mul_nonneg hn0 (show 0 ≤ nz + 1 by linarith)]
  · nlinarith [mul_nonneg hn (show 0 ≤ 1 - (osc0 * (1 - oscMix) + osc1 * oscMix) by linarith),
      mul_nonneg hn0 (show 0 ≤ 1 - nz by linarith)]

/-- Witness of C18 at the `INSTR_KPS` mix (oscMix 0.23, noise 0.996) with samples 1, -1
and 1/2. -/
theorem preFilterSample_abs_le_one_witness :
    |preFilterSample 1 (-1) (1 / 2) 0.23 0.996| ≤ 1 :=
  preFilterSample_abs_le_one 1 (-1) (1 / 2) 0.23 0.996 (by norm_num) (by norm_num)
    (by norm_num) (by norm_num) (by norm_num [abs_le]) (by norm_num [abs_le])
    (by norm_num [abs_le])

/-- C19, the claim as stated fails: the value returned is a `float`.  From note 1500 on it
is `+inf`, so `note_freq(1500)` and `note_freq(1501)` are equal and `note_freq` is not
strictly increasing; the float product `note_freq(4) * SEMITONE_RATIO` is one unit in the
last place below `note_freq(5)`; and the argument `65535 + 1` does not fit the `uint16_t`
parameter, so `note_freq(65535 + 1)` is `note_freq(0)`, a finite value below
`note_freq(65535)`. -/
theorem note_freq_not_strictly_increasing :
    (note_freq 1500 = ⊤ ∧ note_freq 1501 = ⊤ ∧ ¬ (note_freq 1500 < note_freq 1501)) ∧
    (note_freq 4 = (((10801203 : ℚ) / 1048576 : ℚ) : WithTop ℚ) ∧
      note_freq 5 = (((11443477 : ℚ) / 1048576 : ℚ) : WithTop ℚ) ∧
      toFloat ((10801203 : ℚ) / 1048576 * SEMITONE_RATIO) =
        (((11443476 : ℚ) / 1048576 : ℚ) : WithTop ℚ) ∧
      note_freq 5 ≠ toFloat ((10801203 : ℚ) / 1048576 * SEMITONE_RATIO)) ∧
    (note_freq (65535 + 1) = note_freq 0 ∧ note_freq (65535 + 1) < note_freq 65535) := by
  have h0 : note_freq 1500 = ⊤ := note_freq_of_ge_1500 1500 (by norm_num) (by norm_num)
  have h1 : note_freq 1501 = ⊤ := note_freq_of_ge_1500 1501 (by norm_num) (by norm_num)
  have hw : note_freq (65535 + 1) = note_freq 0 := by
    rw [note_freq_mod]
  have h45 := note_freq_4_5
  refine ⟨⟨h0, h1, ?_⟩, ⟨h45.1, h45.2.1, h45.2.2.1, ?_⟩, ⟨hw, ?_⟩⟩
  · rw [h0, h1]
    exact lt_irrefl _
  · rw [h45.2.1, h45.2.2.1]
    intro h
    have h' := WithTop.coe_injective h
    norm_num at h'
  · rw [hw, (note_freq_of_le_1499 0 (by norm_num)).1,
      note_freq_of_ge_1500 65535 (by norm_num) (by norm_num)]
    exact WithTop.coe_lt_top _

/-- C19 as amended: `note_freq(0x45)` is 440; for a 16-bit note number `m` the value
returned is the float nearest to `440 * SEMITONE_RATIO ^ (m - 0x45)`, with the exponent a
signed integer (negative below 0x45), or `+inf` when that is out of range; these exact
values satisfy the semitone recurrence for every `n` below 65535, and the floats satisfy it
within rounding; up to note 1499 the value returned is finite, within `2^-24` of the exact
value in relative terms, and strictly increasing; from note 1500 on it is `+inf`; over all
16-bit notes it is increasing and it is positive everywhere. -/
theorem note_freq_equal_temperament (n m : ℕ) (hn : n < 65535) (hm : m < 65536) :
    note_freq 0x45 = ((440 : ℚ) : WithTop ℚ) ∧
    note_freq m = toFloat (440 * SEMITONE_RATIO ^ ((m : ℤ) - 0x45)) ∧
    note_freq_exact (n + 1) = note_freq_exact n * SEMITONE_RATIO ∧
    (m ≤ 1499 →
      note_freq m = ((roundToFloat (note_freq_exact m) : ℚ) : WithTop ℚ) ∧
      note_freq_exact m * (1 - 2 ^ (-24 : ℤ)) ≤ roundToFloat (note_freq_exact m) ∧
      roundToFloat (note_freq_exact m) ≤ note_freq_exact m * (1 + 2 ^ (-24 : ℤ))) ∧
    (n + 1 ≤ 1499 →
      roundToFloat (note_freq_exact n) * SEMITONE_RATIO * (1 - 2 ^ (-24 : ℤ)) ≤
        roundToFloat (note_freq_exact (n + 1)) * (1 + 2 ^ (-24 : ℤ)) ∧
      roundToFloat (note_freq_exact (n + 1)) * (1 - 2 ^ (-24 : ℤ)) ≤
        roundToFloat (note_freq_exact n) * SEMITONE_RATIO * (1 + 2 ^ (-24 : ℤ))) ∧
    (1500 ≤ m → note_freq m = ⊤) ∧
    (n < m → m ≤ 1499 → note_freq n < note_freq m) ∧
    (n ≤ m → note_freq n ≤ note_freq m) ∧
    0 < note_freq m ∧
    (∀ k : ℕ, 0 < note_freq k) := by
  have hpos : (0 : ℚ) < SEMITONE_RATIO := lt_trans one_pos semitone_ratio_gt_one
  refine ⟨?_, ?_, note_freq_exact_succ n hn, ?_, ?_, ?_, ?_, ?_, note_freq_pos m, note_freq_pos⟩
  · have h := (note_freq_of_le_1499 0x45 (by norm_num)).1
    have he : note_freq_exact 0x45 = 440 := by
      rw [note_freq_exact_of_lt 0x45 (by norm_num)]
      norm_num
    rw [h, he, roundToFloat_440]
  · unfold note_freq
    rw [note_freq_exact_of_lt m hm]
  · intro h
    have := note_freq_of_le_1499 m h
    exact ⟨this.1, this.2.2.1, this.2.2.2⟩
  · intro h
    have ha := note_freq_of_le_1499 n (by omega)
    have hb := note_freq_of_le_1499 (n + 1) h
    have hs := note_freq_exact_succ n hn
    have hE : 0 < note_freq_exact n := lt_of_lt_of_le one_pos ha.2.1
    have he1 : (0 : ℚ) < 1 - 2 ^ (-24 : ℤ) := by norm_num
    have he2 : (0 : ℚ) < 1 + 2 ^ (-24 : ℤ) := by norm_num
    rw [hs] at hb ⊢
    constructor
    · calc roundToFloat (note_freq_exact n) * SEMITONE_RATIO * (1 - 2 ^ (-24 : ℤ))
          ≤ note_freq_exact n * (1 + 2 ^ (-24 : ℤ)) * SEMITONE_RATIO * (1 - 2 ^ (-24 : ℤ)) := by
            apply mul_le_mul_of_nonneg_right _ he1.le
            exact mul_le_mul_of_nonneg_right ha.2.2.2 hpos.le
        _ = note_freq_exact n * SEMITONE_RATIO * (1 - 2 ^ (-24 : ℤ)) * (1 + 2 ^ (-24 : ℤ)) := by
            ring
        _ ≤ roundToFloat (note_freq_exact n * SEMITONE_RATIO) * (1 + 2 ^ (-24 : ℤ)) :=
            mul_le_mul_of_nonneg_right hb.2.2.1 he2.le
    · calc roundToFloat (note_freq_exact n * SEMITONE_RATIO) * (1 - 2 ^ (-24 : ℤ))
          ≤ note_freq_exact n * SEMITONE_RATIO * (1 + 2 ^ (-24 : ℤ)) * (1 - 2 ^ (-24 : ℤ)) :=
            mul_le_mul_of_nonneg_right hb.2.2.2 he1.le
        _ = note_freq_exact n * (1 - 2 ^ (-24 : ℤ)) * SEMITONE_RATIO * (1 + 2 ^ (-24 : ℤ)) := by
            ring
        _ ≤ roundToFloat (note_freq_exact n) * SEMITONE_RATIO * (1 + 2 ^ (-24 : ℤ)) := by
            apply mul_le_mul_of_nonneg_right _ he2.le
            exact mul_le_mul_of_nonneg_right ha.2.2.1 hpos.le
  · intro h
    exact note_freq_of_ge_1500 m h hm
  · intro hnm h
    exact note_freq_lt_of_lt n m hnm h
  · intro hnm
    by_cases h : m ≤ 1499
    · rcases Nat.eq_or_lt_of_le hnm with rfl | hlt
      · exact le_refl _
      · exact le_of_lt (note_freq_lt_of_lt n m hlt h)
    · rw [note_freq_of_ge_1500 m (by omega) hm]
      exact le_top

/-- Witness of the amended C19 at the notes 0x44 and 0x45. -/
theorem note_freq_equal_temperament_witness :
    note_freq 0x45 = ((440 : ℚ) : WithTop ℚ) ∧ note_freq 0x44 < note_freq 0x45 :=
  let h := note_freq_equal_temperament 0x44 0x45 (by norm_num) (by norm_num)
  ⟨h.1, h.2.2.2.2.2.2.1 (by norm_num) (by norm_num)⟩

/-- C20: two `playNote` calls that differ only in their attack and decay arguments set the
same parameters to the same values and schedule the voice with the same time and
duration; two `playSequence` calls on sequences whose notes differ only in attack and
decay make the same `playNote` calls. -/
theorem playNote_ignores_attack_decay (freq time duration amp attack1 decay1 attack2 decay2 : ℚ)
    (instrument : Instrument) (s : Sequence) (bpm : ℚ) :
    playNote freq time duration amp attack1 decay1 instrument =
      playNote freq time duration amp attack2 decay2 instrument ∧
    playSequence s bpm instrument =
      playSequence
        { s with notes := s.notes.map (fun n => { n with attack := attack2, decay := decay2 }) }
        bpm instrument := by
  constructor
  · cases instrument <;> rfl
  · rw [playSequence_eq_map, playSequence_eq_map]
    simp only [List.map_map]
    apply List.map_congr_left
    intro n _
    simp only [Function.comp]
    exact playNote_attack_decay_irrelevant _ _ _ _ n.attack n.decay attack2 decay2 _

end Synth
